import Mathlib

/-!
# Contact-management store: a shallow embedding of `src/store/index.js`

The store of the contact-management client is a single reactive record that
mirrors the server's contacts and groups.  Every operation of the module is
translated here into a pure function on an explicit `State`:

* the remote service (`contactApi` / `groupApi` of `src/services/api.js`) is
  a record `Api` of functions, one per endpoint, each returning either a
  response or the error axios rejects with;
* an `async` operation returns an `Outcome`: the state it leaves, the way its
  promise settles (`Except.ok v` = resolves with `v`, `Except.error e` =
  rejects with `e`), and the trace of the network calls it issued, each paired
  with the store state the operation left when it issued the call (the state
  that stays visible while the call is pending as long as no other operation
  writes the store in between);
* `console.log` / `console.error` do not touch the state and are left out.

JavaScript values are typed after the REST contract the store consumes: an id
is a JSON number or a JSON string, a contact is an object with an `id`, profile
fields and an optional `groups` array, and so on.  The loose equality `==`
between a number and a string goes through the string-to-number conversion of
the runtime; that conversion is a parameter of the development (`ToNumber`), so
nothing proved here depends on how a particular string converts.
-/

set_option autoImplicit false

namespace ContactStore

/-! ## Identifiers and the two JavaScript equalities -/

/-- An entity id as it reaches the store: a JSON number (route handlers and the
server use integers) or a string (route parameters).  The id `num n` is the
JavaScript number whose value is the integer `n`; an integer that is not the
value of a JavaScript number (past `2^53` not every integer is one) stands for
no id. -/
inductive Id where
  | num (n : Int)
  | str (s : String)
  deriving DecidableEq, Repr

/-- Taken as a parameter: the string-to-number conversion `ToNumber` of the
JavaScript runtime, which is not code of this repository.  For a string `s`,
`toNumber s = some n` says that the runtime converts `s` to the number with the
integer value `n`, and `none` that it converts `s` to `NaN`, to an infinity or to
a number that is not an integer.  Every definition that evaluates `==` takes
this conversion as its first argument, and every general theorem holds for
every such conversion, hence for the one of the runtime. -/
abbrev ToNumber : Type := String → Option Int

/-- JavaScript `a == b` on ids: same-type operands compare by value, a number
and a string compare after converting the string with `ToNumber`. -/
def looseEq (toNumber : ToNumber) : Id → Id → Bool
  | .num a, .num b => a == b
  | .str a, .str b => a == b
  | .num a, .str b => toNumber b == some a
  | .str a, .num b => toNumber a == some b

/-- JavaScript `a === b` on ids: same type and same value. -/
def strictEq : Id → Id → Bool
  | .num a, .num b => a == b
  | .str a, .str b => a == b
  | _, _ => false

/-- Loose equality `state.selectedContactId == id` where the left operand may be
`null`: `null` is loosely equal to no number and no string. -/
def looseEqNullable (toNumber : ToNumber) : Option Id → Id → Bool
  | none, _ => false
  | some a, b => looseEq toNumber a b

/-- The method `Array.prototype.includes` on a list of ids (SameValueZero, which
on numbers other than `NaN` and on strings is `===`). -/
def includes (xs : List Id) (x : Id) : Bool :=
  xs.any (fun y => strictEq y x)

/-! ## Entities -/

/-- A group, also the shape of an entry of a contact's `groups` array. -/
structure Group where
  id : Id
  name : String
  deriving DecidableEq, Repr

/-- A contact; `groups = none` is a missing, `null` or `undefined` field
(falsy), `some gs` an array (truthy, also when empty). -/
structure Contact where
  id : Id
  name : String
  email : String
  groups : Option (List Group)
  deriving DecidableEq, Repr

/-- Pagination metadata of a list response: an opaque JSON object. -/
structure Meta where
  fields : List (String × Int)
  deriving DecidableEq, Repr

/-! ## Transport: requests, responses, errors -/

/-- Query parameters of `contactApi.getAll`. -/
structure Params where
  search : Option String
  group : Option Id
  deriving DecidableEq, Repr

/-- Payload of `contactApi.create` / `contactApi.update`. -/
structure ContactData where
  name : Option String
  email : Option String
  group_ids : Option (List Id)
  deriving DecidableEq, Repr

/-- Payload of `groupApi.create` / `groupApi.update`. -/
structure GroupData where
  name : Option String
  deriving DecidableEq, Repr

/-- Body of `GET /contacts`: an envelope `{data, meta?}` or a bare array. -/
inductive ListBody where
  | envelope (data : List Contact) (pagination : Option Meta)
  | bare (items : List Contact)
  deriving DecidableEq, Repr

/-- Body `{contact: ...}` of `POST /contacts` and `PUT /contacts/{id}`. -/
structure ContactBody where
  contact : Contact
  deriving DecidableEq, Repr

/-- Body `{group: ...}` of `POST /groups` and `PUT /groups/{id}`. -/
structure GroupBody where
  group : Group
  deriving DecidableEq, Repr

/-- An axios response; only `data` is read by the store. -/
structure Response (α : Type) where
  data : α
  deriving DecidableEq, Repr

/-- Body of an error response, `{message?: string}`. -/
structure ErrorData where
  message : Option String
  deriving DecidableEq, Repr

/-- The `response` of an axios error. -/
structure ErrorResponse where
  status : Nat
  data : Option ErrorData
  deriving DecidableEq, Repr

/-- What an api call rejects with: `response` is absent on a transport
failure. -/
structure ApiError where
  message : String
  response : Option ErrorResponse
  deriving DecidableEq, Repr

/-- A network call issued through `contactApi` / `groupApi`. -/
inductive Call where
  | contactGetAll (params : Params)
  | contactCreate (data : ContactData)
  | contactUpdate (id : Id) (data : ContactData)
  | contactDelete (id : Id)
  | groupGetAll
  | groupCreate (data : GroupData)
  | groupUpdate (id : Id) (data : GroupData)
  | groupDelete (id : Id)
  deriving DecidableEq, Repr

/-- The remote service as `src/services/api.js` exposes it to the store: one
function per endpoint used, giving the settled result of the request. -/
structure Api where
  contactGetAll : Params → Except ApiError (Response ListBody)
  contactCreate : ContactData → Except ApiError (Response ContactBody)
  contactUpdate : Id → ContactData → Except ApiError (Response ContactBody)
  contactDelete : Id → Except ApiError (Response Unit)
  groupGetAll : Unit → Except ApiError (Response (List Group))
  groupCreate : GroupData → Except ApiError (Response GroupBody)
  groupUpdate : Id → GroupData → Except ApiError (Response GroupBody)
  groupDelete : Id → Except ApiError (Response Unit)

/-! ## The store state -/

/-- The reactive `state` object of the store. -/
structure State where
  contacts : List Contact
  groups : List Group
  selectedContactId : Option Id
  selectedGroupId : Option Id
  isLoading : Bool
  error : Option String
  pagination : Option Meta
  deriving DecidableEq, Repr

/-- The initial state the module creates. -/
def State.initial : State :=
  { contacts := [], groups := [], selectedContactId := none, selectedGroupId := none,
    isLoading := false, error := none, pagination := none }

/-- Result of running an asynchronous store operation to settlement. -/
structure Outcome (α : Type) where
  state : State
  result : Except ApiError α
  trace : List (Call × State)

/-- The network calls an operation issued, in order. -/
def Outcome.calls {α : Type} (o : Outcome α) : List Call :=
  o.trace.map Prod.fst

/-- The store states an operation left when it issued its network calls: what is
visible while a call is pending, until some other operation writes the store. -/
def Outcome.pending {α : Type} (o : Outcome α) : List State :=
  o.trace.map Prod.snd

/-- The expression `error.response?.data?.message || fallback`: the message of
the server when there is one and it is truthy (a non-empty string), else the
fallback. -/
def errorMessage (error : ApiError) (fallback : String) : String :=
  match error.response with
  | none => fallback
  | some r =>
    match r.data with
    | none => fallback
    | some d =>
      match d.message with
      | none => fallback
      | some m => if m = "" then fallback else m

/-- The method `Array.prototype.findIndex`, with `none` for `-1`. -/
def findIndex {α : Type} (p : α → Bool) : List α → Option Nat
  | [] => none
  | x :: xs => if p x then some 0 else (findIndex p xs).map (· + 1)

/-! ## Store operations -/

/-- Translation of `loadContacts(params)`: the catch block records the message and
does not rethrow, so the promise resolves either way. -/
def loadContacts (api : Api) (params : Params) (state : State) : Outcome Unit :=
  let s1 := { state with isLoading := true, error := none }
  match api.contactGetAll params with
  | .ok response =>
    let s2 := { s1 with
      contacts := (match response.data with
        | .envelope data _ => data
        | .bare items => items),
      pagination := (match response.data with
        | .envelope _ pagination => pagination
        | .bare _ => none) }
    { state := { s2 with isLoading := false }, result := .ok (),
      trace := [(Call.contactGetAll params, s1)] }
  | .error error =>
    let s2 := { s1 with error := some (errorMessage error "Failed to load contacts") }
    { state := { s2 with isLoading := false }, result := .ok (),
      trace := [(Call.contactGetAll params, s1)] }

/-- Translation of `loadGroups()`. -/
def loadGroups (api : Api) (state : State) : Outcome Unit :=
  let s1 := { state with isLoading := true, error := none }
  match api.groupGetAll () with
  | .ok response =>
    let s2 := { s1 with groups := response.data }
    { state := { s2 with isLoading := false }, result := .ok (),
      trace := [(Call.groupGetAll, s1)] }
  | .error error =>
    let s2 := { s1 with error := some (errorMessage error "Failed to load groups") }
    { state := { s2 with isLoading := false }, result := .ok (),
      trace := [(Call.groupGetAll, s1)] }

/-- Translation of `addContact(contactData)`. -/
def addContact (api : Api) (contactData : ContactData) (state : State) : Outcome Contact :=
  let s1 := { state with isLoading := true, error := none }
  match api.contactCreate contactData with
  | .ok response =>
    let newContact := response.data.contact
    let s2 := { s1 with contacts := s1.contacts ++ [newContact] }
    { state := { s2 with isLoading := false }, result := .ok newContact,
      trace := [(Call.contactCreate contactData, s1)] }
  | .error error =>
    let s2 := { s1 with error := some (errorMessage error "Failed to create contact") }
    { state := { s2 with isLoading := false }, result := .error error,
      trace := [(Call.contactCreate contactData, s1)] }

/-- Translation of `updateContact(id, contactData)`. -/
def updateContact (toNumber : ToNumber) (api : Api) (id : Id) (contactData : ContactData) (state : State) :
    Outcome Contact :=
  let s1 := { state with isLoading := true, error := none }
  match api.contactUpdate id contactData with
  | .ok response =>
    let updatedContact := response.data.contact
    let s2 :=
      match findIndex (fun contact => looseEq toNumber contact.id id) s1.contacts with
      | some index => { s1 with contacts := s1.contacts.set index updatedContact }
      | none => { s1 with contacts := s1.contacts ++ [updatedContact] }
    { state := { s2 with isLoading := false }, result := .ok updatedContact,
      trace := [(Call.contactUpdate id contactData, s1)] }
  | .error error =>
    let s2 := { s1 with error := some (errorMessage error "Failed to update contact") }
    { state := { s2 with isLoading := false }, result := .error error,
      trace := [(Call.contactUpdate id contactData, s1)] }

/-- Translation of `deleteContact(id)`. -/
def deleteContact (toNumber : ToNumber) (api : Api) (id : Id) (state : State) : Outcome Bool :=
  let s1 := { state with isLoading := true, error := none }
  match api.contactDelete id with
  | .ok _ =>
    let s2 :=
      match findIndex (fun contact => looseEq toNumber contact.id id) s1.contacts with
      | some index => { s1 with contacts := s1.contacts.eraseIdx index }
      | none => s1
    let s3 :=
      if looseEqNullable toNumber s2.selectedContactId id then { s2 with selectedContactId := none }
      else s2
    { state := { s3 with isLoading := false }, result := .ok true,
      trace := [(Call.contactDelete id, s1)] }
  | .error error =>
    let s2 := { s1 with error := some (errorMessage error "Failed to delete contact") }
    { state := { s2 with isLoading := false }, result := .error error,
      trace := [(Call.contactDelete id, s1)] }

/-- Translation of `getContactById(id)`; `none` is `null`. -/
def getContactById (toNumber : ToNumber) (state : State) (id : Id) : Option Contact :=
  state.contacts.find? (fun contact => looseEq toNumber contact.id id)

/-- Translation of `selectContact(id)`. -/
def selectContact (id : Id) (state : State) : State :=
  { state with selectedContactId := some id }

/-- Translation of `addGroup(groupData)`. -/
def addGroup (api : Api) (groupData : GroupData) (state : State) : Outcome Group :=
  let s1 := { state with isLoading := true, error := none }
  match api.groupCreate groupData with
  | .ok response =>
    let newGroup := response.data.group
    let s2 := { s1 with groups := s1.groups ++ [newGroup] }
    { state := { s2 with isLoading := false }, result := .ok newGroup,
      trace := [(Call.groupCreate groupData, s1)] }
  | .error error =>
    let s2 := { s1 with error := some (errorMessage error "Failed to create group") }
    { state := { s2 with isLoading := false }, result := .error error,
      trace := [(Call.groupCreate groupData, s1)] }

/-- Translation of `updateGroup(id, groupData)`. -/
def updateGroup (toNumber : ToNumber) (api : Api) (id : Id) (groupData : GroupData) (state : State) :
    Outcome Group :=
  let s1 := { state with isLoading := true, error := none }
  match api.groupUpdate id groupData with
  | .ok response =>
    let updatedGroup := response.data.group
    let s2 :=
      match findIndex (fun group => looseEq toNumber group.id id) s1.groups with
      | some index => { s1 with groups := s1.groups.set index updatedGroup }
      | none => { s1 with groups := s1.groups ++ [updatedGroup] }
    { state := { s2 with isLoading := false }, result := .ok updatedGroup,
      trace := [(Call.groupUpdate id groupData, s1)] }
  | .error error =>
    let s2 := { s1 with error := some (errorMessage error "Failed to update group") }
    { state := { s2 with isLoading := false }, result := .error error,
      trace := [(Call.groupUpdate id groupData, s1)] }

/-- Translation of `deleteGroup(id)`. -/
def deleteGroup (toNumber : ToNumber) (api : Api) (id : Id) (state : State) : Outcome Bool :=
  let s1 := { state with isLoading := true, error := none }
  match api.groupDelete id with
  | .ok _ =>
    let s2 :=
      match findIndex (fun group => looseEq toNumber group.id id) s1.groups with
      | some index => { s1 with groups := s1.groups.eraseIdx index }
      | none => s1
    let s3 :=
      if looseEqNullable toNumber s2.selectedGroupId id then { s2 with selectedGroupId := none }
      else s2
    { state := { s3 with isLoading := false }, result := .ok true,
      trace := [(Call.groupDelete id, s1)] }
  | .error error =>
    let s2 := { s1 with error := some (errorMessage error "Failed to delete group") }
    { state := { s2 with isLoading := false }, result := .error error,
      trace := [(Call.groupDelete id, s1)] }

/-- Translation of `getGroupById(id)`; `none` is `null`. -/
def getGroupById (toNumber : ToNumber) (state : State) (id : Id) : Option Group :=
  state.groups.find? (fun group => looseEq toNumber group.id id)

/-- Translation of `selectGroup(id)`. -/
def selectGroup (id : Id) (state : State) : State :=
  { state with selectedGroupId := some id }

/-- Translation of `getContactsByGroupId(groupId)`:
`contact.groups && contact.groups.some(group => group.id === groupId)`. -/
def getContactsByGroupId (state : State) (groupId : Id) : List Contact :=
  state.contacts.filter (fun contact =>
    match contact.groups with
    | none => false
    | some groups => groups.any (fun group => strictEq group.id groupId))

/-- The constant `currentGroupIds` of `addContactToGroup`:
`contact.groups ? contact.groups.map(g => g.id) : []`. -/
def currentGroupIds (contact : Contact) : List Id :=
  match contact.groups with
  | some groups => groups.map (fun g => g.id)
  | none => []

/-- The payload `{ group_ids: ids }` the membership helpers send. -/
def groupIdsPayload (ids : List Id) : ContactData :=
  { name := none, email := none, group_ids := some ids }

/-- Translation of `addContactToGroup(contactId, groupId)`: a failure of the inner
`updateContact` is caught and turned into `false`. -/
def addContactToGroup (toNumber : ToNumber) (api : Api) (contactId groupId : Id) (state : State) : Outcome Bool :=
  match getContactById toNumber state contactId with
  | some contact =>
    if !(includes (currentGroupIds contact) groupId) then
      let updatedGroupIds := currentGroupIds contact ++ [groupId]
      let r := updateContact toNumber api contactId (groupIdsPayload updatedGroupIds) state
      match r.result with
      | .ok _ => { state := r.state, result := .ok true, trace := r.trace }
      | .error _ => { state := r.state, result := .ok false, trace := r.trace }
    else { state := state, result := .ok false, trace := [] }
  | none => { state := state, result := .ok false, trace := [] }

/-- Translation of `removeContactFromGroup(contactId, groupId)`: guarded by
`contact && contact.groups`. -/
def removeContactFromGroup (toNumber : ToNumber) (api : Api) (contactId groupId : Id) (state : State) :
    Outcome Bool :=
  match getContactById toNumber state contactId with
  | some contact =>
    match contact.groups with
    | some groups =>
      let updatedGroupIds :=
        (groups.filter (fun group => !(strictEq group.id groupId))).map (fun group => group.id)
      let r := updateContact toNumber api contactId (groupIdsPayload updatedGroupIds) state
      match r.result with
      | .ok _ => { state := r.state, result := .ok true, trace := r.trace }
      | .error _ => { state := r.state, result := .ok false, trace := r.trace }
    | none => { state := state, result := .ok false, trace := [] }
  | none => { state := state, result := .ok false, trace := [] }

/-! ## Start-up: two loads in flight at once -/

/-- The part of `loadContacts` that runs once its `await` settles: the rest of
the try block on a response, the catch block on a failure, then `finally`.
Neither branch throws, so the promise of `loadContacts` resolves. -/
def loadContactsResume (settled : Except ApiError (Response ListBody)) (state : State) :
    State × Except ApiError Unit :=
  match settled with
  | .ok response =>
    let s2 := { state with
      contacts := (match response.data with
        | .envelope data _ => data
        | .bare items => items),
      pagination := (match response.data with
        | .envelope _ pagination => pagination
        | .bare _ => none) }
    ({ s2 with isLoading := false }, .ok ())
  | .error error =>
    let s2 := { state with error := some (errorMessage error "Failed to load contacts") }
    ({ s2 with isLoading := false }, .ok ())

/-- The part of `loadGroups` that runs once its `await` settles. -/
def loadGroupsResume (settled : Except ApiError (Response (List Group))) (state : State) :
    State × Except ApiError Unit :=
  match settled with
  | .ok response =>
    let s2 := { state with groups := response.data }
    ({ s2 with isLoading := false }, .ok ())
  | .error error =>
    let s2 := { state with error := some (errorMessage error "Failed to load groups") }
    ({ s2 with isLoading := false }, .ok ())

/-- Which of the two responses of `initStore` arrives first. -/
inductive Arrival where
  | contactsFirst
  | groupsFirst
  deriving DecidableEq, Repr

/-- The combinator `Promise.all` on two promises, given in the order in which
they settle: it rejects with the first rejection and resolves when both have
resolved. -/
def promiseAll (first second : Except ApiError Unit) : Except ApiError Unit :=
  match first with
  | .error e => .error e
  | .ok _ =>
    match second with
    | .error e => .error e
    | .ok _ => .ok ()

/-- Translation of `initStore()`: `loadContacts()` and `loadGroups()` are both
started (each runs up to its `await`, in this order), then the two responses
arrive in the order `arrival` and each load resumes on the state the other
left; the result is that of `Promise.all`.  The trace pairs each call with the
state at the moment it was issued. -/
def initStore (api : Api) (arrival : Arrival) (state : State) : Outcome Unit :=
  let params : Params := { search := none, group := none }
  let s1 := { state with isLoading := true, error := none }
  let s2 := { s1 with isLoading := true, error := none }
  match arrival with
  | .contactsFirst =>
    let a := loadContactsResume (api.contactGetAll params) s2
    let b := loadGroupsResume (api.groupGetAll ()) a.1
    { state := b.1, result := promiseAll a.2 b.2,
      trace := [(Call.contactGetAll params, s1), (Call.groupGetAll, s2)] }
  | .groupsFirst =>
    let b := loadGroupsResume (api.groupGetAll ()) s2
    let a := loadContactsResume (api.contactGetAll params) b.1
    { state := a.1, result := promiseAll b.2 a.2,
      trace := [(Call.contactGetAll params, s1), (Call.groupGetAll, s2)] }

/-- The store state during `initStore` once the first of the two responses has
been handled and the other call is still pending: both loads have started and
the load whose response arrived first has run to its `finally`. -/
def initStoreAfterFirst (api : Api) (arrival : Arrival) (state : State) : State :=
  let params : Params := { search := none, group := none }
  let s1 := { state with isLoading := true, error := none }
  let s2 := { s1 with isLoading := true, error := none }
  match arrival with
  | .contactsFirst => (loadContactsResume (api.contactGetAll params) s2).1
  | .groupsFirst => (loadGroupsResume (api.groupGetAll ()) s2).1

/-- The call of `initStore` that is still pending once the first response has
been handled. -/
def initStoreStillPending : Arrival → Call
  | .contactsFirst => Call.groupGetAll
  | .groupsFirst => Call.contactGetAll { search := none, group := none }

/-! ## Derived views used in the statements -/

/-- The array a list body contributes to the store:
`response.data.data || response.data`. -/
def ListBody.contacts : ListBody → List Contact
  | .envelope data _ => data
  | .bare items => items

/-- The ids of the contacts collection, in order. -/
def contactIds (state : State) : List Id :=
  state.contacts.map (fun contact => contact.id)

/-- The ids of the groups collection, in order. -/
def groupIds (state : State) : List Id :=
  state.groups.map (fun group => group.id)

/-! ## The mutating operations as one family -/

/-- The eight operations of the store that follow the loading protocol, with
their arguments. -/
inductive Op where
  | loadContacts (params : Params)
  | loadGroups
  | addContact (contactData : ContactData)
  | updateContact (id : Id) (contactData : ContactData)
  | deleteContact (id : Id)
  | addGroup (groupData : GroupData)
  | updateGroup (id : Id) (groupData : GroupData)
  | deleteGroup (id : Id)
  deriving DecidableEq, Repr

/-- Forget the value a promise resolves with, keeping how it settles. -/
def Outcome.void {α : Type} (o : Outcome α) : Outcome Unit :=
  { state := o.state, result := o.result.map (fun _ => ()), trace := o.trace }

/-- Run one of the eight operations to settlement. -/
def Op.run (toNumber : ToNumber) (api : Api) : Op → State → Outcome Unit
  | .loadContacts params, s => ContactStore.loadContacts api params s
  | .loadGroups, s => ContactStore.loadGroups api s
  | .addContact d, s => (ContactStore.addContact api d s).void
  | .updateContact id d, s => (ContactStore.updateContact toNumber api id d s).void
  | .deleteContact id, s => (ContactStore.deleteContact toNumber api id s).void
  | .addGroup d, s => (ContactStore.addGroup api d s).void
  | .updateGroup id d, s => (ContactStore.updateGroup toNumber api id d s).void
  | .deleteGroup id, s => (ContactStore.deleteGroup toNumber api id s).void

/-- The settled result of the one network call an operation makes. -/
def Op.network (api : Api) : Op → Except ApiError Unit
  | .loadContacts params => (api.contactGetAll params).map (fun _ => ())
  | .loadGroups => (api.groupGetAll ()).map (fun _ => ())
  | .addContact d => (api.contactCreate d).map (fun _ => ())
  | .updateContact id d => (api.contactUpdate id d).map (fun _ => ())
  | .deleteContact id => (api.contactDelete id).map (fun _ => ())
  | .addGroup d => (api.groupCreate d).map (fun _ => ())
  | .updateGroup id d => (api.groupUpdate id d).map (fun _ => ())
  | .deleteGroup id => (api.groupDelete id).map (fun _ => ())

/-! ## Test doubles for the runtime and the remote service -/

/-- ECMAScript white space and line terminators in the ASCII range. -/
def isJsSpace (c : Char) : Bool :=
  c = ' ' || c = '\t' || c = '\n' || c = '\r' || c = Char.ofNat 11 || c = Char.ofNat 12

/-- Value of a run of decimal digits, `none` if a character is not a digit. -/
def digitsValue : List Char → Nat → Option Nat
  | [], acc => some acc
  | c :: cs, acc =>
    if c.isDigit then digitsValue cs (acc * 10 + (c.toNat - '0'.toNat)) else none

/-- Value of a run of one to fifteen decimal digits (such a value is exact as
a JavaScript number). -/
def decimalValue (cs : List Char) : Option Nat :=
  match cs with
  | [] => none
  | _ :: _ => if cs.length ≤ 15 then digitsValue cs 0 else none

/-- A stand-in for the conversion of the runtime, used to run the examples.  It
answers only on the plainest strings: after dropping ASCII white space at both
ends, the empty string is `0` and a decimal integer literal of at most fifteen
digits with an optional sign is its value; on these the runtime gives the same
number.  On every other string it answers `none`, which need not be what the
runtime does (`"1.0"`, `"0x1"` convert to 1 there); the examples use only plain
literals such as `"1"`. -/
def decimalToNumber : ToNumber := fun s =>
  let cs := ((s.data.dropWhile isJsSpace).reverse.dropWhile isJsSpace).reverse
  match cs with
  | [] => some 0
  | '-' :: ds => (decimalValue ds).map (fun n => -(Int.ofNat n))
  | '+' :: ds => (decimalValue ds).map Int.ofNat
  | _ => (decimalValue cs).map Int.ofNat


/-- A transport failure without a response (network down). -/
def networkDown : ApiError :=
  { message := "Network Error", response := none }

/-- An error response with the given status and `{message}` body. -/
def errorWithMessage (status : Nat) (m : String) : ApiError :=
  { message := "Request failed", response := some { status := status, data := some { message := some m } } }

/-- A service on which every endpoint rejects with `e`. -/
def Api.failing (e : ApiError) : Api :=
  { contactGetAll := fun _ => .error e
    contactCreate := fun _ => .error e
    contactUpdate := fun _ _ => .error e
    contactDelete := fun _ => .error e
    groupGetAll := fun _ => .error e
    groupCreate := fun _ => .error e
    groupUpdate := fun _ _ => .error e
    groupDelete := fun _ => .error e }

/-- A service whose contact update always answers with the contact `c`. -/
def Api.updatingTo (c : Contact) : Api :=
  { Api.failing networkDown with contactUpdate := fun _ _ => .ok { data := { contact := c } } }

/-- A service whose group update always answers with the group `g`. -/
def Api.updatingGroupTo (g : Group) : Api :=
  { Api.failing networkDown with groupUpdate := fun _ _ => .ok { data := { group := g } } }

/-- A service that persists what it is sent: an update answers with the contact
`base` carrying the membership ids of the payload. -/
def Api.echoing (base : Contact) : Api :=
  { Api.failing networkDown with
    contactUpdate := fun _ d =>
      .ok { data := { contact := { base with
        groups := some ((d.group_ids.getD []).map (fun i => { id := i, name := "" })) } } }
    contactDelete := fun _ => .ok { data := () }
    groupDelete := fun _ => .ok { data := () } }

/-- A service whose contact list answers with `body` and whose group list
answers with `gs`. -/
def Api.listing (body : ListBody) (gs : List Group) : Api :=
  { Api.failing networkDown with
    contactGetAll := fun _ => .ok { data := body }
    groupGetAll := fun _ => .ok { data := gs } }

/-- The contact `{id: 3, name: "Ana"}` of the spec scenario. -/
def contactAna : Contact :=
  { id := .num 3, name := "Ana", email := "", groups := none }

/-- A service on which creating a contact answers with `c` and creating a group
with `g`. -/
def Api.creating (c : Contact) (g : Group) : Api :=
  { Api.failing networkDown with
    contactCreate := fun _ => .ok { data := { contact := c } }
    groupCreate := fun _ => .ok { data := { group := g } } }

/-- Group 9 of the spec example. -/
def groupNine : Group :=
  { id := .num 9, name := "Nine" }

/-- A payload that only renames. -/
def renameTo (n : String) : ContactData :=
  { name := some n, email := none, group_ids := none }

/-- The store right after start-up with the given contacts. -/
def stateWith (cs : List Contact) : State :=
  { State.initial with contacts := cs }

/-- Contact 1 of the spec example, member of group 9. -/
def contactOne : Contact :=
  { id := .num 1, name := "One", email := "", groups := some [{ id := .num 9, name := "Nine" }] }

/-- Contact 2 of the spec example, with an empty membership. -/
def contactTwo : Contact :=
  { id := .num 2, name := "Two", email := "", groups := some [] }

/-- A contact whose `groups` field is missing. -/
def contactBare : Contact :=
  { id := .num 7, name := "Bare", email := "", groups := none }

/-! ## Lemmas on the array primitives -/

theorem looseEq_refl (toNumber : ToNumber) (a : Id) : looseEq toNumber a a = true := by
  cases a <;> simp [looseEq]

theorem strictEq_iff (a b : Id) : strictEq a b = true ↔ a = b := by
  cases a <;> cases b <;> simp [strictEq]

theorem includes_iff (xs : List Id) (x : Id) : includes xs x = true ↔ x ∈ xs := by
  simp only [includes, List.any_eq_true, strictEq_iff]
  constructor
  · rintro ⟨y, hy, rfl⟩; exact hy
  · intro h; exact ⟨x, h, rfl⟩

theorem findIndex_eq_none_iff {α : Type} (p : α → Bool) (l : List α) :
    findIndex p l = none ↔ ∀ x ∈ l, p x = false := by
  induction l with
  | nil => simp [findIndex]
  | cons x xs ih =>
    by_cases hx : p x = true
    · simp [findIndex, hx]
    · simp [findIndex, hx, ih]

theorem findIndex_isSome_of_mem {α : Type} (p : α → Bool) (l : List α) (x : α)
    (hx : x ∈ l) (hp : p x = true) : ∃ i, findIndex p l = some i := by
  cases h : findIndex p l with
  | some i => exact ⟨i, rfl⟩
  | none =>
    have := (findIndex_eq_none_iff p l).1 h x hx
    simp [hp] at this

theorem findIndex_lt_length {α : Type} (p : α → Bool) (l : List α) (i : Nat)
    (h : findIndex p l = some i) : i < l.length := by
  induction l generalizing i with
  | nil => simp [findIndex] at h
  | cons x xs ih =>
    by_cases hx : p x = true
    · simp [findIndex, hx] at h; subst h; simp
    · simp only [findIndex, hx] at h
      cases hr : findIndex p xs with
      | none => simp [hr] at h
      | some j =>
        simp [hr] at h; subst h
        have := ih j hr
        simp; omega

theorem find?_set_findIndex {α : Type} (p : α → Bool) (l : List α) (i : Nat) (e : α)
    (h : findIndex p l = some i) (he : p e = true) : (l.set i e).find? p = some e := by
  induction l generalizing i with
  | nil => simp [findIndex] at h
  | cons x xs ih =>
    by_cases hx : p x = true
    · simp [findIndex, hx] at h; subst h; simp [List.set, he]
    · simp only [findIndex, hx] at h
      cases hr : findIndex p xs with
      | none => simp [hr] at h
      | some j =>
        simp [hr] at h; subst h
        simp [List.set, List.find?, hx, ih j hr]

theorem findIndex_isSome_of_find? {α : Type} (p : α → Bool) (l : List α) (x : α)
    (h : l.find? p = some x) : ∃ i, findIndex p l = some i :=
  findIndex_isSome_of_mem p l x (List.mem_of_find?_eq_some h) (List.find?_some h)

theorem findIndex_split {α : Type} (p : α → Bool) (l : List α) (i : Nat)
    (h : findIndex p l = some i) :
    ∃ pre c post, l = pre ++ c :: post ∧ (∀ x ∈ pre, p x = false) ∧ p c = true ∧
      i = pre.length := by
  induction l generalizing i with
  | nil => simp [findIndex] at h
  | cons x xs ih =>
    by_cases hx : p x = true
    · simp [findIndex, hx] at h; subst h
      exact ⟨[], x, xs, rfl, by simp, hx, rfl⟩
    · simp only [findIndex, hx] at h
      cases hr : findIndex p xs with
      | none => simp [hr] at h
      | some j =>
        simp [hr] at h; subst h
        obtain ⟨pre, c, post, hl, hpre, hc, hj⟩ := ih j hr
        refine ⟨x :: pre, c, post, by simp [hl], ?_, hc, by simp [hj]⟩
        intro y hy
        rcases List.mem_cons.1 hy with rfl | hy
        · simpa using hx
        · exact hpre y hy

theorem findIndex_append_of_first {α : Type} (p : α → Bool) (pre post : List α) (c : α)
    (hpre : ∀ x ∈ pre, p x = false) (hc : p c = true) :
    findIndex p (pre ++ c :: post) = some pre.length := by
  induction pre with
  | nil => simp [findIndex, hc]
  | cons x xs ih =>
    have hx : p x = false := hpre x (by simp)
    have := ih (fun y hy => hpre y (by simp [hy]))
    simp [findIndex, hx, this]

theorem loadContacts_eq_resume (api : Api) (params : Params) (s : State) :
    loadContacts api params s =
      { state := (loadContactsResume (api.contactGetAll params)
          { s with isLoading := true, error := none }).1,
        result := (loadContactsResume (api.contactGetAll params)
          { s with isLoading := true, error := none }).2,
        trace := [(Call.contactGetAll params, { s with isLoading := true, error := none })] } := by
  cases h : api.contactGetAll params <;> simp [loadContacts, loadContactsResume, h]

theorem loadGroups_eq_resume (api : Api) (s : State) :
    loadGroups api s =
      { state := (loadGroupsResume (api.groupGetAll ())
          { s with isLoading := true, error := none }).1,
        result := (loadGroupsResume (api.groupGetAll ())
          { s with isLoading := true, error := none }).2,
        trace := [(Call.groupGetAll, { s with isLoading := true, error := none })] } := by
  cases h : api.groupGetAll () <;> simp [loadGroups, loadGroupsResume, h]

theorem nodup_map_set_of_findIndex {α : Type} (f : α → Id) (p : α → Bool) (l : List α)
    (i : Nat) (e : α) (hnd : (l.map f).Nodup) (hi : findIndex p l = some i)
    (hnew : ∀ c ∈ l, f c = f e → l.find? p = some c) : ((l.set i e).map f).Nodup := by
  induction l generalizing i with
  | nil => simp [findIndex] at hi
  | cons x xs ih =>
    rw [List.map_cons, List.nodup_cons] at hnd
    by_cases hx : p x = true
    · simp [findIndex, hx] at hi; subst hi
      simp only [List.set_cons_zero, List.map_cons, List.nodup_cons]
      refine ⟨?_, hnd.2⟩
      intro hmem
      obtain ⟨c, hc, hfc⟩ := List.mem_map.1 hmem
      have := hnew c (List.mem_cons_of_mem _ hc) hfc
      simp [List.find?, hx] at this
      subst this
      exact hnd.1 (List.mem_map_of_mem f hc)
    · simp only [findIndex, hx] at hi
      cases hr : findIndex p xs with
      | none => simp [hr] at hi
      | some j =>
        simp [hr] at hi; subst hi
        have hxe : f x ≠ f e := by
          intro h
          have := hnew x (List.mem_cons_self _ _) h
          have := List.find?_some this
          exact hx this
        have hnew2 : ∀ c ∈ xs, f c = f e → xs.find? p = some c := by
          intro c hc hfc
          have := hnew c (List.mem_cons_of_mem _ hc) hfc
          simpa [List.find?, hx] using this
        simp only [List.set_cons_succ, List.map_cons, List.nodup_cons]
        refine ⟨?_, ih j hnd.2 hr hnew2⟩
        intro hmem
        obtain ⟨c, hc, hfc⟩ := List.mem_map.1 hmem
        rcases List.mem_or_eq_of_mem_set hc with hc2 | hc2
        · exact hnd.1 (hfc ▸ List.mem_map_of_mem f hc2)
        · subst hc2
          exact hxe hfc.symm

theorem nodup_map_eraseIdx {α : Type} (f : α → Id) (l : List α) (i : Nat)
    (hnd : (l.map f).Nodup) : ((l.eraseIdx i).map f).Nodup :=
  hnd.sublist ((List.eraseIdx_sublist l i).map f)

theorem nodup_map_append_singleton {α : Type} (f : α → Id) (l : List α) (e : α)
    (hnd : (l.map f).Nodup) (hnew : f e ∉ l.map f) : ((l ++ [e]).map f).Nodup := by
  rw [List.map_append, List.nodup_append]
  refine ⟨hnd, by simp, ?_⟩
  intro a ha hb
  simp at hb
  subst hb
  exact hnew ha

theorem loadContacts_contacts_of_ok (api : Api) (params : Params) (s : State)
    (response : Response ListBody) (hok : api.contactGetAll params = .ok response) :
    (loadContacts api params s).state.contacts = response.data.contacts := by
  cases hb : response.data <;> simp [loadContacts, hok, hb, ListBody.contacts]

theorem findIndex_eraseIdx_of_single {α : Type} (p : α → Bool) (l : List α) (i : Nat)
    (hi : findIndex p l = some i) (hone : (l.filter p).length ≤ 1) :
    findIndex p (l.eraseIdx i) = none := by
  induction l generalizing i with
  | nil => simp [findIndex] at hi
  | cons x xs ih =>
    by_cases hx : p x = true
    · simp [findIndex, hx] at hi; subst hi
      simp only [List.filter_cons, hx, if_true, List.length_cons] at hone
      have hnil : xs.filter p = [] := List.length_eq_zero.1 (by omega)
      rw [List.eraseIdx_cons_zero, findIndex_eq_none_iff]
      intro y hy
      have := List.filter_eq_nil_iff.1 hnil y hy
      simpa using this
    · simp only [findIndex, hx] at hi
      cases hr : findIndex p xs with
      | none => simp [hr] at hi
      | some j =>
        simp [hr] at hi; subst hi
        have hone2 : (xs.filter p).length ≤ 1 := by
          simpa [List.filter_cons, hx] using hone
        simp [List.eraseIdx_cons_succ, findIndex, hx, ih j hr hone2]

theorem eraseIdx_append_cons {α : Type} (pre post : List α) (c : α) :
    (pre ++ c :: post).eraseIdx pre.length = pre ++ post := by
  induction pre with
  | nil => simp
  | cons x xs ih => simp [ih]

theorem set_append_cons {α : Type} (pre post : List α) (c e : α) :
    (pre ++ c :: post).set pre.length e = pre ++ e :: post := by
  induction pre with
  | nil => simp
  | cons x xs ih => simp [ih]

theorem deleteContact_of_ok (toNumber : ToNumber) (api : Api) (id : Id) (s : State) (r : Response Unit)
    (hok : api.contactDelete id = .ok r) :
    deleteContact toNumber api id s =
      { state :=
          { s with
            contacts := (match findIndex (fun contact => looseEq toNumber contact.id id) s.contacts with
              | some index => s.contacts.eraseIdx index
              | none => s.contacts),
            selectedContactId :=
              if looseEqNullable toNumber s.selectedContactId id then none else s.selectedContactId,
            isLoading := false, error := none },
        result := .ok true,
        trace := [(Call.contactDelete id, { s with isLoading := true, error := none })] } := by
  simp only [deleteContact, hok]
  cases findIndex (fun contact : Contact => looseEq toNumber contact.id id) s.contacts <;>
    cases looseEqNullable toNumber s.selectedContactId id <;> simp

theorem updateContact_calls (toNumber : ToNumber) (api : Api) (id : Id) (d : ContactData) (s : State) :
    (updateContact toNumber api id d s).trace
      = [(Call.contactUpdate id d, { s with isLoading := true, error := none })] := by
  cases h : api.contactUpdate id d <;> simp [updateContact, h]

theorem mem_getContactsByGroupId_iff (s : State) (groupId : Id) (c : Contact) :
    c ∈ getContactsByGroupId s groupId ↔ c ∈ s.contacts ∧ groupId ∈ currentGroupIds c := by
  simp only [getContactsByGroupId, List.mem_filter, currentGroupIds]
  cases hg : c.groups with
  | none => simp
  | some gs =>
    simp only [List.any_eq_true, strictEq_iff, List.mem_map]

theorem filter_groups_ids (gs : List Group) (groupId : Id) :
    (gs.filter (fun group => !(strictEq group.id groupId))).map (fun group => group.id)
      = (gs.map (fun group => group.id)).filter (fun i => !(strictEq i groupId)) := by
  rw [List.filter_map]
  rfl

theorem find?_split {α : Type} (p : α → Bool) (l : List α) (c : α)
    (h : l.find? p = some c) :
    ∃ pre post, l = pre ++ c :: post ∧ (∀ x ∈ pre, p x = false) ∧
      findIndex p l = some pre.length := by
  induction l with
  | nil => simp at h
  | cons x xs ih =>
    by_cases hx : p x = true
    · simp [List.find?, hx] at h
      subst h
      exact ⟨[], xs, rfl, by simp, by simp [findIndex, hx]⟩
    · simp [List.find?, hx] at h
      obtain ⟨pre, post, hl, hpre, hi⟩ := ih h
      refine ⟨x :: pre, post, by simp [hl], ?_, by simp [findIndex, hx, hi]⟩
      intro y hy
      rcases List.mem_cons.1 hy with rfl | hy
      · simpa using hx
      · exact hpre y hy

/-! ## Update: replace or append -/

/-- C1 (as amended): when the store holds a contact whose id loosely equals `id`
and the update succeeds with an entity whose own id loosely equals `id`, then
`getContactById id` afterwards returns exactly that entity, and the contacts
collection keeps its length (the length part needs no condition on the
entity). -/
theorem updateContact_getContactById (toNumber : ToNumber) (api : Api) (id : Id) (d : ContactData) (s : State)
    (response : Response ContactBody)
    (hheld : ∃ c ∈ s.contacts, looseEq toNumber c.id id = true)
    (hok : api.contactUpdate id d = .ok response)
    (hid : looseEq toNumber response.data.contact.id id = true) :
    getContactById toNumber (updateContact toNumber api id d s).state id = some response.data.contact ∧
    (updateContact toNumber api id d s).state.contacts.length = s.contacts.length := by
  obtain ⟨c, hc, hcid⟩ := hheld
  obtain ⟨i, hi⟩ := findIndex_isSome_of_mem (fun contact => looseEq toNumber contact.id id) s.contacts c hc hcid
  simp only [updateContact, hok, hi, getContactById]
  refine ⟨?_, by simp⟩
  exact find?_set_findIndex (fun contact => looseEq toNumber contact.id id) s.contacts i
    response.data.contact hi hid

/-- Witness for C1: contact 1 is renamed and the server returns it under the
same id. -/
theorem updateContact_getContactById_witness :
    getContactById decimalToNumber (updateContact decimalToNumber (Api.updatingTo { contactOne with name := "Uno" }) (.str "1")
        (renameTo "Uno") (stateWith [contactOne, contactTwo])).state (.str "1")
      = some { contactOne with name := "Uno" } ∧
    (updateContact decimalToNumber (Api.updatingTo { contactOne with name := "Uno" }) (.str "1")
        (renameTo "Uno") (stateWith [contactOne, contactTwo])).state.contacts.length = 2 :=
  updateContact_getContactById decimalToNumber (Api.updatingTo { contactOne with name := "Uno" }) (.str "1")
    (renameTo "Uno") (stateWith [contactOne, contactTwo]) { data := { contact := { contactOne with name := "Uno" } } }
    ⟨contactOne, by decide, by decide⟩ rfl (by decide)

/-- Counterexample to C1 as stated: the store holds contact 1, the update of id 1
succeeds, but the server answers with an entity whose id is 2; afterwards
`getContactById 1` is `null`, not the returned entity. -/
theorem updateContact_getContactById_counterexample :
    (∃ c ∈ (stateWith [contactOne]).contacts, looseEq decimalToNumber c.id (.num 1) = true) ∧
    (Api.updatingTo contactTwo).contactUpdate (.num 1) (renameTo "Two")
      = .ok { data := { contact := contactTwo } } ∧
    (updateContact decimalToNumber (Api.updatingTo contactTwo) (.num 1) (renameTo "Two")
      (stateWith [contactOne])).result = .ok contactTwo ∧
    getContactById decimalToNumber (updateContact decimalToNumber (Api.updatingTo contactTwo) (.num 1) (renameTo "Two")
      (stateWith [contactOne])).state (.num 1) = none := by
  refine ⟨⟨contactOne, by decide, by decide⟩, rfl, rfl, by decide⟩

/-- C2: when no contact has an id loosely equal to `id`, a successful
`updateContact` resolves with the returned entity, the contacts collection
becomes the old one followed by that entity (so every earlier element is
unchanged, the entity is last) and its length grows by exactly 1; the same holds
for `updateGroup` on the groups collection. -/
theorem update_appends_on_miss (toNumber : ToNumber) (api : Api) (id : Id) (s : State) :
    (∀ (d : ContactData) (response : Response ContactBody),
      (∀ c ∈ s.contacts, looseEq toNumber c.id id = false) →
      api.contactUpdate id d = .ok response →
      (updateContact toNumber api id d s).result = .ok response.data.contact ∧
      (updateContact toNumber api id d s).state.contacts = s.contacts ++ [response.data.contact] ∧
      (updateContact toNumber api id d s).state.contacts.length = s.contacts.length + 1) ∧
    (∀ (d : GroupData) (response : Response GroupBody),
      (∀ g ∈ s.groups, looseEq toNumber g.id id = false) →
      api.groupUpdate id d = .ok response →
      (updateGroup toNumber api id d s).result = .ok response.data.group ∧
      (updateGroup toNumber api id d s).state.groups = s.groups ++ [response.data.group] ∧
      (updateGroup toNumber api id d s).state.groups.length = s.groups.length + 1) := by
  constructor
  · intro d response hmiss hok
    have hnone := (findIndex_eq_none_iff (fun contact => looseEq toNumber contact.id id) s.contacts).2 hmiss
    simp [updateContact, hok, hnone]
  · intro d response hmiss hok
    have hnone := (findIndex_eq_none_iff (fun group => looseEq toNumber group.id id) s.groups).2 hmiss
    simp [updateGroup, hok, hnone]

/-- Witness for C2: contact 2 is updated while the store only holds contact 1,
and group 9 is updated while the store holds no group. -/
theorem update_appends_on_miss_witness :
    (updateContact decimalToNumber (Api.updatingTo contactTwo) (.num 2) (renameTo "Two")
      (stateWith [contactOne])).state.contacts = [contactOne, contactTwo] ∧
    (updateGroup decimalToNumber (Api.updatingGroupTo { id := .num 9, name := "Nine" }) (.num 9) { name := some "Nine" }
      (stateWith [contactOne])).state.groups = [{ id := .num 9, name := "Nine" }] :=
  ⟨((update_appends_on_miss decimalToNumber (Api.updatingTo contactTwo) (.num 2) (stateWith [contactOne])).1
      (renameTo "Two") { data := { contact := contactTwo } } (by decide) rfl).2.1,
   ((update_appends_on_miss decimalToNumber (Api.updatingGroupTo { id := .num 9, name := "Nine" }) (.num 9)
      (stateWith [contactOne])).2
      { name := some "Nine" } { data := { group := { id := .num 9, name := "Nine" } } }
      (by decide) rfl).2.1⟩

/-! ## Failures -/

/-- C3 (as amended): when the network call of `addContact` fails with a response
body carrying a non-empty message `m`, the call rejects with that failure,
`state.error` is `m` afterwards and the contacts collection is what it was. -/
theorem addContact_error_surfacing (api : Api) (d : ContactData) (s : State) (e : ApiError)
    (r : ErrorResponse) (m : String)
    (hfail : api.contactCreate d = .error e)
    (hresp : e.response = some r) (hdata : r.data = some { message := some m })
    (hm : m ≠ "") :
    (addContact api d s).result = .error e ∧
    (addContact api d s).state.error = some m ∧
    (addContact api d s).state.contacts = s.contacts := by
  simp [addContact, hfail, errorMessage, hresp, hdata, hm]

/-- Witness for C3: the 422 response `"Name required"` of the spec. -/
theorem addContact_error_surfacing_witness :
    (addContact (Api.failing (errorWithMessage 422 "Name required")) (renameTo "")
      (stateWith [contactOne])).result = .error (errorWithMessage 422 "Name required") ∧
    (addContact (Api.failing (errorWithMessage 422 "Name required")) (renameTo "")
      (stateWith [contactOne])).state.error = some "Name required" ∧
    (addContact (Api.failing (errorWithMessage 422 "Name required")) (renameTo "")
      (stateWith [contactOne])).state.contacts = [contactOne] :=
  addContact_error_surfacing (Api.failing (errorWithMessage 422 "Name required")) (renameTo "")
    (stateWith [contactOne]) (errorWithMessage 422 "Name required")
    { status := 422, data := some { message := some "Name required" } } "Name required"
    rfl rfl rfl (by decide)

/-- Counterexample to C3 as stated: the response body carries the message `""`;
the empty string is falsy, so `state.error` is the fallback text and not the
message the body carries. -/
theorem addContact_error_surfacing_counterexample :
    (Api.failing (errorWithMessage 422 "")).contactCreate (renameTo "")
      = .error (errorWithMessage 422 "") ∧
    (errorWithMessage 422 "").response
      = some { status := 422, data := some { message := some "" } } ∧
    (addContact (Api.failing (errorWithMessage 422 "")) (renameTo "")
      (stateWith [contactOne])).state.error = some "Failed to create contact" ∧
    (addContact (Api.failing (errorWithMessage 422 "")) (renameTo "")
      (stateWith [contactOne])).state.error ≠ some "" := by
  refine ⟨rfl, rfl, by decide, by decide⟩

/-- The six operations that create, update or delete reject with the failure
of their network call, and every one of the eight records a message. -/
theorem Op.run_on_failure (toNumber : ToNumber) (api : Api) (op : Op) (s : State) (e : ApiError)
    (hfail : op.network api = .error e) :
    (∃ m, (op.run toNumber api s).state.error = some m) ∧
    ((∀ p, op ≠ .loadContacts p) → op ≠ .loadGroups → (op.run toNumber api s).result = .error e) := by
  cases op <;> simp only [Op.network] at hfail
  case loadContacts p =>
    cases h : api.contactGetAll p <;> simp [h, Except.map] at hfail
    simp [Op.run, ContactStore.loadContacts, h]
  case loadGroups =>
    cases h : api.groupGetAll () <;> simp [h, Except.map] at hfail
    simp [Op.run, ContactStore.loadGroups, h]
  case addContact d =>
    cases h : api.contactCreate d <;> simp [h, Except.map] at hfail
    simp [Op.run, ContactStore.addContact, h, Outcome.void, Except.map, hfail]
  case updateContact id d =>
    cases h : api.contactUpdate id d <;> simp [h, Except.map] at hfail
    simp [Op.run, ContactStore.updateContact, h, Outcome.void, Except.map, hfail]
  case deleteContact id =>
    cases h : api.contactDelete id <;> simp [h, Except.map] at hfail
    simp [Op.run, ContactStore.deleteContact, h, Outcome.void, Except.map, hfail]
  case addGroup d =>
    cases h : api.groupCreate d <;> simp [h, Except.map] at hfail
    simp [Op.run, ContactStore.addGroup, h, Outcome.void, Except.map, hfail]
  case updateGroup id d =>
    cases h : api.groupUpdate id d <;> simp [h, Except.map] at hfail
    simp [Op.run, ContactStore.updateGroup, h, Outcome.void, Except.map, hfail]
  case deleteGroup id =>
    cases h : api.groupDelete id <;> simp [h, Except.map] at hfail
    simp [Op.run, ContactStore.deleteGroup, h, Outcome.void, Except.map, hfail]

/-- C4 (the code departs from it): on a service where every call fails with a
500 response, `loadContacts` and `loadGroups` record the message in
`state.error` but their promises resolve; the failure is not re-signalled,
while `addContact` on the same service rejects with it. -/
theorem load_swallows_failure :
    (Api.failing (errorWithMessage 500 "Server Error")).contactGetAll { search := none, group := none }
      = .error (errorWithMessage 500 "Server Error") ∧
    (loadContacts (Api.failing (errorWithMessage 500 "Server Error"))
      { search := none, group := none } State.initial).result = .ok () ∧
    (loadContacts (Api.failing (errorWithMessage 500 "Server Error"))
      { search := none, group := none } State.initial).state.error = some "Server Error" ∧
    (loadGroups (Api.failing (errorWithMessage 500 "Server Error")) State.initial).result
      = .ok () ∧
    (loadGroups (Api.failing (errorWithMessage 500 "Server Error")) State.initial).state.error
      = some "Server Error" ∧
    (addContact (Api.failing (errorWithMessage 500 "Server Error")) (renameTo "Ana")
      State.initial).result = .error (errorWithMessage 500 "Server Error") := by
  refine ⟨rfl, rfl, by decide, rfl, by decide, rfl⟩

/-! ## The loading flag -/

/-- C5 (as amended): each of the eight mutating operations, from every starting
state (whatever its `isLoading`) and for every outcome of the network call,
issues exactly one network call, leaves `isLoading` true in the state in which
it issues that call, which is the state visible for as long as the call is
pending when no other operation writes the store in that time, and leaves
`isLoading` false in the state after settlement. -/
theorem isLoading_invariant (toNumber : ToNumber) (api : Api) (op : Op) (s : State) :
    (op.run toNumber api s).pending.length = 1 ∧
    (∀ p ∈ (op.run toNumber api s).pending, p.isLoading = true) ∧
    (op.run toNumber api s).state.isLoading = false := by
  cases op
  case loadContacts p =>
    cases h : api.contactGetAll p <;>
      simp [Op.run, ContactStore.loadContacts, h, Outcome.pending]
  case loadGroups =>
    cases h : api.groupGetAll () <;>
      simp [Op.run, ContactStore.loadGroups, h, Outcome.pending]
  case addContact d =>
    cases h : api.contactCreate d <;>
      simp [Op.run, ContactStore.addContact, h, Outcome.pending, Outcome.void]
  case updateContact id d =>
    cases h : api.contactUpdate id d <;>
      simp [Op.run, ContactStore.updateContact, h, Outcome.pending, Outcome.void]
  case deleteContact id =>
    cases h : api.contactDelete id <;>
      simp [Op.run, ContactStore.deleteContact, h, Outcome.pending, Outcome.void]
  case addGroup d =>
    cases h : api.groupCreate d <;>
      simp [Op.run, ContactStore.addGroup, h, Outcome.pending, Outcome.void]
  case updateGroup id d =>
    cases h : api.groupUpdate id d <;>
      simp [Op.run, ContactStore.updateGroup, h, Outcome.pending, Outcome.void]
  case deleteGroup id =>
    cases h : api.groupDelete id <;>
      simp [Op.run, ContactStore.deleteGroup, h, Outcome.pending, Outcome.void]

theorem initStore_resumes_after_first (api : Api) (s : State) :
    (initStore api .contactsFirst s).state
      = (loadGroupsResume (api.groupGetAll ()) (initStoreAfterFirst api .contactsFirst s)).1 ∧
    (initStore api .groupsFirst s).state
      = (loadContactsResume (api.contactGetAll { search := none, group := none })
          (initStoreAfterFirst api .groupsFirst s)).1 := by
  constructor <;> rfl

/-- Counterexample to C5 as stated: `initStore`, which runs at every start-up,
has `loadContacts` and `loadGroups` in flight together.  When the contacts
response arrives first, `loadContacts` runs its `finally` and the store shows
`isLoading = false` although the call of `loadGroups` is still pending; the
same happens to the call of `loadContacts` when the groups response arrives
first. -/
theorem isLoading_invariant_counterexample :
    initStoreStillPending .contactsFirst = Call.groupGetAll ∧
    (initStoreAfterFirst (Api.listing (.bare [contactOne]) [groupNine]) .contactsFirst
      State.initial).isLoading = false ∧
    (initStore (Api.listing (.bare [contactOne]) [groupNine]) .contactsFirst State.initial).state
      = (loadGroupsResume ((Api.listing (.bare [contactOne]) [groupNine]).groupGetAll ())
          (initStoreAfterFirst (Api.listing (.bare [contactOne]) [groupNine]) .contactsFirst
            State.initial)).1 ∧
    initStoreStillPending .groupsFirst = Call.contactGetAll { search := none, group := none } ∧
    (initStoreAfterFirst (Api.listing (.bare [contactOne]) [groupNine]) .groupsFirst
      State.initial).isLoading = false := by
  refine ⟨rfl, rfl, rfl, rfl, rfl⟩

/-! ## Group membership -/

/-- C6: the store holds contact `contactId` (found as `c`) whose membership does
not contain `groupId`; the first `addContactToGroup` sends the union, the
update succeeds and the server returns the contact (id loosely equal to
`contactId`) with the membership ids it was sent.  Then the first call returns
true and issued exactly that one update, and a second call, on any service,
issues no network call, returns false and leaves the state as the first call
left it: one network update in all. -/
theorem addContactToGroup_twice (toNumber : ToNumber) (api₁ api₂ : Api) (contactId groupId : Id) (s : State)
    (c : Contact) (response : Response ContactBody) (gs : List Group)
    (hheld : getContactById toNumber s contactId = some c)
    (hnot : groupId ∉ currentGroupIds c)
    (hok : api₁.contactUpdate contactId (groupIdsPayload (currentGroupIds c ++ [groupId]))
      = .ok response)
    (hsame : looseEq toNumber response.data.contact.id contactId = true)
    (hgroups : response.data.contact.groups = some gs)
    (hids : gs.map (fun g => g.id) = currentGroupIds c ++ [groupId]) :
    (addContactToGroup toNumber api₁ contactId groupId s).result = .ok true ∧
    (addContactToGroup toNumber api₁ contactId groupId s).calls
      = [Call.contactUpdate contactId (groupIdsPayload (currentGroupIds c ++ [groupId]))] ∧
    (addContactToGroup toNumber api₂ contactId groupId
      (addContactToGroup toNumber api₁ contactId groupId s).state).calls = [] ∧
    (addContactToGroup toNumber api₂ contactId groupId
      (addContactToGroup toNumber api₁ contactId groupId s).state).result = .ok false ∧
    (addContactToGroup toNumber api₂ contactId groupId
      (addContactToGroup toNumber api₁ contactId groupId s).state).state
      = (addContactToGroup toNumber api₁ contactId groupId s).state ∧
    ((addContactToGroup toNumber api₁ contactId groupId s).calls ++
      (addContactToGroup toNumber api₂ contactId groupId
        (addContactToGroup toNumber api₁ contactId groupId s).state).calls).length = 1 := by
  have hinc : includes (currentGroupIds c) groupId = false := by
    cases h : includes (currentGroupIds c) groupId with
    | false => rfl
    | true => exact absurd ((includes_iff _ _).1 h) hnot
  obtain ⟨i, hi⟩ := findIndex_isSome_of_find?
    (fun contact : Contact => looseEq toNumber contact.id contactId) s.contacts c hheld
  have hfirst : addContactToGroup toNumber api₁ contactId groupId s =
      { state := { s with contacts := s.contacts.set i response.data.contact,
                          isLoading := false, error := none },
        result := .ok true,
        trace := [(Call.contactUpdate contactId (groupIdsPayload (currentGroupIds c ++ [groupId])),
          { s with isLoading := true, error := none })] } := by
    simp [addContactToGroup, hheld, hinc, updateContact, hok, hi]
  have hfound : getContactById toNumber
      { s with contacts := s.contacts.set i response.data.contact,
               isLoading := false, error := none } contactId = some response.data.contact :=
    find?_set_findIndex (fun contact : Contact => looseEq toNumber contact.id contactId) s.contacts i
      response.data.contact hi hsame
  have hinc2 : includes (currentGroupIds response.data.contact) groupId = true := by
    rw [includes_iff]
    simp [currentGroupIds, hgroups, hids]
  have hsecond : addContactToGroup toNumber api₂ contactId groupId
      { s with contacts := s.contacts.set i response.data.contact,
               isLoading := false, error := none } =
      { state := { s with contacts := s.contacts.set i response.data.contact,
                          isLoading := false, error := none },
        result := .ok false, trace := [] } := by
    simp [addContactToGroup, hfound, hinc2]
  rw [hfirst]
  simp only [hsecond]
  simp [Outcome.calls]

/-- Witness for C6: contact 2 has an empty membership and is added to group 9
twice, on a service that persists what it is sent. -/
theorem addContactToGroup_twice_witness :
    (addContactToGroup decimalToNumber (Api.echoing contactTwo) (.num 2) (.num 9)
      (stateWith [contactOne, contactTwo])).result = .ok true ∧
    (addContactToGroup decimalToNumber (Api.failing networkDown) (.num 2) (.num 9)
      (addContactToGroup decimalToNumber (Api.echoing contactTwo) (.num 2) (.num 9)
        (stateWith [contactOne, contactTwo])).state).calls = [] :=
  have h := addContactToGroup_twice decimalToNumber (Api.echoing contactTwo) (Api.failing networkDown)
    (.num 2) (.num 9) (stateWith [contactOne, contactTwo]) contactTwo
    { data := { contact := { contactTwo with groups := some [{ id := .num 9, name := "" }] } } }
    [{ id := .num 9, name := "" }] (by decide) (by decide) rfl (by decide) rfl rfl
  ⟨h.1, h.2.2.1⟩

/-- C7: `getContactsByGroupId groupId` is the contacts collection filtered, in
its original order, by a test that holds exactly of the contacts that have a
`groups` array containing an entry whose id is strictly equal to `groupId`;
so a contact is returned if and only if it is such a contact of the collection,
the result is a sublist, and no returned contact has a missing or empty
`groups`.  The read is a function of the state and yields no new state. -/
theorem getContactsByGroupId_spec (s : State) (groupId : Id) :
    (∃ keep : Contact → Bool,
      (∀ c, keep c = true ↔
        ∃ gs, c.groups = some gs ∧ ∃ g ∈ gs, strictEq g.id groupId = true) ∧
      getContactsByGroupId s groupId = s.contacts.filter keep) ∧
    (∀ c, c ∈ getContactsByGroupId s groupId ↔
      c ∈ s.contacts ∧ ∃ gs, c.groups = some gs ∧ ∃ g ∈ gs, g.id = groupId) ∧
    (getContactsByGroupId s groupId).Sublist s.contacts ∧
    (∀ c ∈ getContactsByGroupId s groupId, c.groups ≠ none ∧ c.groups ≠ some []) := by
  have hkeep : ∀ c : Contact,
      (match c.groups with
        | none => false
        | some groups => groups.any (fun group => strictEq group.id groupId)) = true ↔
      ∃ gs, c.groups = some gs ∧ ∃ g ∈ gs, g.id = groupId := by
    intro c
    cases hg : c.groups with
    | none => simp
    | some gs => simp [List.any_eq_true, strictEq_iff]
  refine ⟨⟨_, ?_, rfl⟩, ?_, ?_, ?_⟩
  · intro c
    rw [hkeep c]
    constructor
    · rintro ⟨gs, hgs, g, hg, hid⟩
      exact ⟨gs, hgs, g, hg, (strictEq_iff _ _).2 hid⟩
    · rintro ⟨gs, hgs, g, hg, hid⟩
      exact ⟨gs, hgs, g, hg, (strictEq_iff _ _).1 hid⟩
  · intro c
    simp only [getContactsByGroupId, List.mem_filter, hkeep c]
  · exact List.filter_sublist _
  · intro c hc
    simp only [getContactsByGroupId, List.mem_filter, hkeep c] at hc
    obtain ⟨_, gs, hgs, g, hg, _⟩ := hc
    rw [hgs]
    refine ⟨by simp, ?_⟩
    intro h
    cases h
    simp at hg

/-- C9 (as amended): when `getContactById contactId` finds a contact, then
`removeContactFromGroup` issues exactly one update, carrying the membership ids
without `groupId`, whenever that contact has a `groups` array (empty or not,
and whether or not `groupId` is a member); when its `groups` field is missing
or null, no update is issued, the call returns false and the state is
untouched. -/
theorem removeContactFromGroup_calls (toNumber : ToNumber) (api : Api) (contactId groupId : Id) (s : State)
    (c : Contact) (hheld : getContactById toNumber s contactId = some c) :
    (∀ gs, c.groups = some gs →
      (removeContactFromGroup toNumber api contactId groupId s).calls
        = [Call.contactUpdate contactId (groupIdsPayload
            ((gs.filter (fun group => !(strictEq group.id groupId))).map (fun group => group.id)))]) ∧
    (c.groups = none →
      (removeContactFromGroup toNumber api contactId groupId s).calls = [] ∧
      (removeContactFromGroup toNumber api contactId groupId s).result = .ok false ∧
      (removeContactFromGroup toNumber api contactId groupId s).state = s) := by
  constructor
  · intro gs hgs
    simp only [removeContactFromGroup, hheld, hgs, Outcome.calls]
    cases hr : api.contactUpdate contactId (groupIdsPayload
        ((gs.filter (fun group => !(strictEq group.id groupId))).map (fun group => group.id))) <;>
      simp [updateContact, hr]
  · intro hnone
    simp [removeContactFromGroup, hheld, hnone, Outcome.calls]

/-- Witness for C9 as amended: contact 2 has an empty `groups` array, so removing
it from group 9, of which it never was a member, still issues one update. -/
theorem removeContactFromGroup_calls_witness :
    (removeContactFromGroup decimalToNumber (Api.echoing contactTwo) (.num 2) (.num 9)
      (stateWith [contactOne, contactTwo])).calls
      = [Call.contactUpdate (.num 2) (groupIdsPayload [])] :=
  (removeContactFromGroup_calls decimalToNumber (Api.echoing contactTwo) (.num 2) (.num 9)
    (stateWith [contactOne, contactTwo]) contactTwo (by decide)).1 [] rfl

/-- Counterexample to C9 as stated: the store holds contact 7, whose `groups`
field is missing; `removeContactFromGroup 7 9` finds the contact and issues no
update at all, returning false. -/
theorem removeContactFromGroup_calls_counterexample :
    getContactById decimalToNumber (stateWith [contactBare]) (.num 7) = some contactBare ∧
    (removeContactFromGroup decimalToNumber (Api.echoing contactBare) (.num 7) (.num 9)
      (stateWith [contactBare])).calls = [] ∧
    (removeContactFromGroup decimalToNumber (Api.echoing contactBare) (.num 7) (.num 9)
      (stateWith [contactBare])).result = .ok false := by
  refine ⟨by decide, by decide, rfl⟩

/-! ## Selection -/

/-- C8: `selectContact id` followed by a `deleteContact id` whose network call
succeeds leaves `selectedContactId` null, whether or not a contact with that id
is held; likewise `selectGroup` / `deleteGroup` for `selectedGroupId`. -/
theorem selection_clears_on_delete (toNumber : ToNumber) (api : Api) (id : Id) (s : State) :
    (∀ r, api.contactDelete id = .ok r →
      (deleteContact toNumber api id (selectContact id s)).state.selectedContactId = none) ∧
    (∀ r, api.groupDelete id = .ok r →
      (deleteGroup toNumber api id (selectGroup id s)).state.selectedGroupId = none) := by
  constructor
  · intro r hok
    simp only [deleteContact, hok, selectContact]
    cases findIndex (fun contact : Contact => looseEq toNumber contact.id id) s.contacts <;>
      simp [looseEqNullable, looseEq_refl]
  · intro r hok
    simp only [deleteGroup, hok, selectGroup]
    cases findIndex (fun group : Group => looseEq toNumber group.id id) s.groups <;>
      simp [looseEqNullable, looseEq_refl]

/-- Witness for C8: contact 5 is selected and deleted while the store holds
contacts 1 and 2 only, and group 9 is selected and deleted. -/
theorem selection_clears_on_delete_witness :
    (deleteContact decimalToNumber (Api.echoing contactOne) (.num 5)
      (selectContact (.num 5) (stateWith [contactOne, contactTwo]))).state.selectedContactId
      = none ∧
    (deleteGroup decimalToNumber (Api.echoing contactOne) (.num 5)
      (selectGroup (.num 5) (stateWith [contactOne, contactTwo]))).state.selectedGroupId
      = none :=
  ⟨(selection_clears_on_delete decimalToNumber (Api.echoing contactOne) (.num 5)
      (stateWith [contactOne, contactTwo])).1 { data := () } rfl,
   (selection_clears_on_delete decimalToNumber (Api.echoing contactOne) (.num 5)
      (stateWith [contactOne, contactTwo])).2 { data := () } rfl⟩

/-! ## Loading -/

/-- C10: on a successful list response `loadContacts` replaces the contacts
collection, whatever it held: with an envelope body the contacts become its
data list and the pagination its meta (null when the envelope has none), with a
bare array the contacts become that array and the pagination null. -/
theorem loadContacts_replaces (api : Api) (params : Params) (s : State)
    (response : Response ListBody) (hok : api.contactGetAll params = .ok response) :
    (∀ data pagination, response.data = .envelope data pagination →
      (loadContacts api params s).state.contacts = data ∧
      (loadContacts api params s).state.pagination = pagination) ∧
    (∀ items, response.data = .bare items →
      (loadContacts api params s).state.contacts = items ∧
      (loadContacts api params s).state.pagination = none) := by
  constructor
  · intro data pagination hbody
    simp [loadContacts, hok, hbody]
  · intro items hbody
    simp [loadContacts, hok, hbody]

/-- Witness for C10, the scenario of the spec: the body
`{data: [{id: 3, name: "Ana"}], meta: {total: 1}}` loaded over a store that held
contacts 1 and 2. -/
theorem loadContacts_replaces_witness :
    (loadContacts (Api.listing (.envelope [contactAna] (some { fields := [("total", 1)] })) [])
      { search := some "ana", group := none } (stateWith [contactOne, contactTwo])).state.contacts
      = [contactAna] ∧
    (loadContacts (Api.listing (.envelope [contactAna] (some { fields := [("total", 1)] })) [])
      { search := some "ana", group := none } (stateWith [contactOne, contactTwo])).state.pagination
      = some { fields := [("total", 1)] } :=
  (loadContacts_replaces (Api.listing (.envelope [contactAna] (some { fields := [("total", 1)] })) [])
    { search := some "ana", group := none } (stateWith [contactOne, contactTwo])
    { data := .envelope [contactAna] (some { fields := [("total", 1)] }) } rfl).1
    [contactAna] (some { fields := [("total", 1)] }) rfl

/-! ## Membership helpers never reject -/

/-- C11: `addContactToGroup` never re-signals a failure (its promise resolves with
a boolean for every state, ids and service); it resolves with true if and only
if it issued an update and that update succeeded; it resolves with false
without issuing a call when the contact is absent or `groupId` is already a
member, and with false after one issued update when that update fails. -/
theorem addContactToGroup_result (toNumber : ToNumber) (api : Api) (contactId groupId : Id) (s : State) :
    (∃ b, (addContactToGroup toNumber api contactId groupId s).result = .ok b) ∧
    ((addContactToGroup toNumber api contactId groupId s).result = .ok true ↔
      ∃ d response,
        (addContactToGroup toNumber api contactId groupId s).calls = [Call.contactUpdate contactId d] ∧
        api.contactUpdate contactId d = .ok response) ∧
    (getContactById toNumber s contactId = none →
      (addContactToGroup toNumber api contactId groupId s).result = .ok false ∧
      (addContactToGroup toNumber api contactId groupId s).calls = []) ∧
    (∀ c, getContactById toNumber s contactId = some c → groupId ∈ currentGroupIds c →
      (addContactToGroup toNumber api contactId groupId s).result = .ok false ∧
      (addContactToGroup toNumber api contactId groupId s).calls = []) ∧
    (∀ c e, getContactById toNumber s contactId = some c → groupId ∉ currentGroupIds c →
      api.contactUpdate contactId (groupIdsPayload (currentGroupIds c ++ [groupId])) = .error e →
      (addContactToGroup toNumber api contactId groupId s).result = .ok false ∧
      (addContactToGroup toNumber api contactId groupId s).calls
        = [Call.contactUpdate contactId (groupIdsPayload (currentGroupIds c ++ [groupId]))]) := by
  cases hfind : getContactById toNumber s contactId with
  | none => simp [addContactToGroup, hfind, Outcome.calls]
  | some c =>
    cases hinc : includes (currentGroupIds c) groupId with
    | true =>
      have hmem := (includes_iff _ _).1 hinc
      simp [addContactToGroup, hfind, hinc, Outcome.calls, hmem]
      intro c2 _ hc2 hnot
      subst hc2
      exact absurd hmem hnot
    | false =>
      have hmem : groupId ∉ currentGroupIds c := by
        intro h
        rw [(includes_iff _ _).2 h] at hinc
        exact Bool.noConfusion hinc
      cases hr : api.contactUpdate contactId
          (groupIdsPayload (currentGroupIds c ++ [groupId])) with
      | error e =>
        simp only [addContactToGroup, hfind, hinc, updateContact, hr, Outcome.calls]
        refine ⟨⟨false, rfl⟩, ?_, by simp, ?_, ?_⟩
        · constructor
          · intro h; simp at h
          · rintro ⟨d, response, hcalls, hok⟩
            simp at hcalls
            rw [← hcalls, hr] at hok
            simp at hok
        · intro c2 hc2 hin
          simp at hc2; subst hc2
          exact absurd hin hmem
        · intro c2 e2 hc2 _ _
          simp at hc2; subst hc2
          simp
      | ok response =>
        simp only [addContactToGroup, hfind, hinc, updateContact, hr, Outcome.calls]
        refine ⟨⟨true, rfl⟩, ?_, by simp, ?_, ?_⟩
        · constructor
          · intro _
            exact ⟨_, response, by simp, hr⟩
          · intro _; simp
        · intro c2 hc2 hin
          simp at hc2; subst hc2
          exact absurd hin hmem
        · intro c2 e2 hc2 _ hfail
          simp at hc2; subst hc2
          rw [hr] at hfail
          simp at hfail

/-- Witness for C11: adding contact 2 to group 9 on a service that is down issues
the update and resolves with false. -/
theorem addContactToGroup_result_witness :
    (addContactToGroup decimalToNumber (Api.failing networkDown) (.num 2) (.num 9)
      (stateWith [contactOne, contactTwo])).result = .ok false ∧
    (addContactToGroup decimalToNumber (Api.failing networkDown) (.num 2) (.num 9)
      (stateWith [contactOne, contactTwo])).calls
      = [Call.contactUpdate (.num 2) (groupIdsPayload (currentGroupIds contactTwo ++ [.num 9]))] :=
  (addContactToGroup_result decimalToNumber (Api.failing networkDown) (.num 2) (.num 9)
    (stateWith [contactOne, contactTwo])).2.2.2.2 contactTwo networkDown
    (by decide) (by decide) rfl

/-! ## Start-up -/

/-- The promise of `initStore` resolves for every service, arrival order and
state, because neither load ever rejects. -/
theorem initStore_resolves (api : Api) (arrival : Arrival) (s : State) :
    (initStore api arrival s).result = .ok () := by
  cases arrival <;>
    cases h1 : api.contactGetAll { search := none, group := none } <;>
    cases h2 : api.groupGetAll () <;>
    simp [initStore, loadContactsResume, loadGroupsResume, promiseAll, h1, h2]

/-- C12 (the code departs from it): on a service where every call fails with a
500 response, both network calls of `initStore` fail and each load records its
message, yet the promise of `initStore` resolves in either arrival order; no
failure reaches the caller. -/
theorem initStore_swallows_failure :
    (Api.failing (errorWithMessage 500 "Server Error")).contactGetAll
      { search := none, group := none } = .error (errorWithMessage 500 "Server Error") ∧
    (Api.failing (errorWithMessage 500 "Server Error")).groupGetAll ()
      = .error (errorWithMessage 500 "Server Error") ∧
    (initStore (Api.failing (errorWithMessage 500 "Server Error")) .contactsFirst
      State.initial).result = .ok () ∧
    (initStore (Api.failing (errorWithMessage 500 "Server Error")) .groupsFirst
      State.initial).result = .ok () ∧
    (initStore (Api.failing (errorWithMessage 500 "Server Error")) .contactsFirst
      State.initial).state.error = some "Server Error" ∧
    (initStore (Api.failing (errorWithMessage 500 "Server Error")) .contactsFirst
      State.initial).calls
      = [Call.contactGetAll { search := none, group := none }, Call.groupGetAll] := by
  refine ⟨rfl, rfl, rfl, rfl, by decide, by decide⟩

/-! ## Uniqueness by id -/

/-- C13 (as amended): pairwise distinct ids are kept by each operation on a
successful response as long as the response brings no duplicate.  A load leaves
distinct ids when the list it receives has distinct ids; an add keeps them when
the created entity has an id not yet held; an update keeps them when the
returned entity shares its id with no held element other than the one it
replaces; a delete always keeps them.  The same holds for groups. -/
theorem uniqueness_preserved (toNumber : ToNumber) (api : Api) (s : State) :
    (∀ params response, api.contactGetAll params = .ok response →
      (response.data.contacts.map (fun c => c.id)).Nodup →
      (contactIds (loadContacts api params s).state).Nodup) ∧
    (∀ d response, api.contactCreate d = .ok response → (contactIds s).Nodup →
      response.data.contact.id ∉ contactIds s →
      (contactIds (addContact api d s).state).Nodup) ∧
    (∀ id d response, api.contactUpdate id d = .ok response → (contactIds s).Nodup →
      (∀ c ∈ s.contacts, c.id = response.data.contact.id → getContactById toNumber s id = some c) →
      (contactIds (updateContact toNumber api id d s).state).Nodup) ∧
    (∀ id, (contactIds s).Nodup → (contactIds (deleteContact toNumber api id s).state).Nodup) ∧
    (∀ response, api.groupGetAll () = .ok response →
      (response.data.map (fun g => g.id)).Nodup →
      (groupIds (loadGroups api s).state).Nodup) ∧
    (∀ d response, api.groupCreate d = .ok response → (groupIds s).Nodup →
      response.data.group.id ∉ groupIds s →
      (groupIds (addGroup api d s).state).Nodup) ∧
    (∀ id d response, api.groupUpdate id d = .ok response → (groupIds s).Nodup →
      (∀ g ∈ s.groups, g.id = response.data.group.id → getGroupById toNumber s id = some g) →
      (groupIds (updateGroup toNumber api id d s).state).Nodup) ∧
    (∀ id, (groupIds s).Nodup → (groupIds (deleteGroup toNumber api id s).state).Nodup) := by
  refine ⟨?_, ?_, ?_, ?_, ?_, ?_, ?_, ?_⟩
  · intro params response hok hnd
    rw [contactIds, loadContacts_contacts_of_ok api params s response hok]
    exact hnd
  · intro d response hok hnd hnew
    simp only [contactIds, addContact, hok]
    exact nodup_map_append_singleton _ _ _ hnd hnew
  · intro id d response hok hnd hnew
    simp only [contactIds, updateContact, hok]
    cases hi : findIndex (fun contact : Contact => looseEq toNumber contact.id id) s.contacts with
    | some i => exact nodup_map_set_of_findIndex _ _ _ i _ hnd hi hnew
    | none =>
      refine nodup_map_append_singleton _ _ _ hnd ?_
      intro hmem
      obtain ⟨c, hc, hfc⟩ := List.mem_map.1 hmem
      have hfound := List.find?_some (hnew c hc hfc)
      have := (findIndex_eq_none_iff _ _).1 hi c hc
      simp [hfound] at this
  · intro id hnd
    simp only [contactIds, deleteContact]
    cases hr : api.contactDelete id with
    | error e => exact hnd
    | ok r =>
      cases hi : findIndex (fun contact : Contact => looseEq toNumber contact.id id) s.contacts with
      | some i =>
        have := nodup_map_eraseIdx (fun c : Contact => c.id) s.contacts i hnd
        simp only []
        split <;> exact this
      | none =>
        simp only []
        split <;> exact hnd
  · intro response hok hnd
    simp only [groupIds, loadGroups, hok]
    exact hnd
  · intro d response hok hnd hnew
    simp only [groupIds, addGroup, hok]
    exact nodup_map_append_singleton _ _ _ hnd hnew
  · intro id d response hok hnd hnew
    simp only [groupIds, updateGroup, hok]
    cases hi : findIndex (fun group : Group => looseEq toNumber group.id id) s.groups with
    | some i => exact nodup_map_set_of_findIndex _ _ _ i _ hnd hi hnew
    | none =>
      refine nodup_map_append_singleton _ _ _ hnd ?_
      intro hmem
      obtain ⟨g, hg, hfg⟩ := List.mem_map.1 hmem
      have hfound := List.find?_some (hnew g hg hfg)
      have := (findIndex_eq_none_iff _ _).1 hi g hg
      simp [hfound] at this
  · intro id hnd
    simp only [groupIds, deleteGroup]
    cases hr : api.groupDelete id with
    | error e => exact hnd
    | ok r =>
      cases hi : findIndex (fun group : Group => looseEq toNumber group.id id) s.groups with
      | some i =>
        have := nodup_map_eraseIdx (fun g : Group => g.id) s.groups i hnd
        simp only []
        split <;> exact this
      | none =>
        simp only []
        split <;> exact hnd

/-- Witness for C13 as amended: with contact 1 held, creating contact 2 keeps the
ids distinct. -/
theorem uniqueness_preserved_witness :
    (contactIds (addContact (Api.creating contactTwo groupNine) (renameTo "Two")
      (stateWith [contactOne])).state).Nodup :=
  (uniqueness_preserved decimalToNumber (Api.creating contactTwo groupNine) (stateWith [contactOne])).2.1
    (renameTo "Two") { data := { contact := contactTwo } } rfl (by decide) (by decide)

/-- Counterexample to C13 as stated: the store holds contact 1 alone (distinct
ids); `addContact` succeeds and the server answers with an entity whose id is 1
again; the entity is pushed without any check and the ids are `[1, 1]`. -/
theorem uniqueness_preserved_counterexample :
    (contactIds (stateWith [contactOne])).Nodup ∧
    (Api.creating contactOne groupNine).contactCreate (renameTo "One")
      = .ok { data := { contact := contactOne } } ∧
    contactIds (addContact (Api.creating contactOne groupNine) (renameTo "One")
      (stateWith [contactOne])).state = [.num 1, .num 1] ∧
    ¬ (contactIds (addContact (Api.creating contactOne groupNine) (renameTo "One")
      (stateWith [contactOne])).state).Nodup := by
  refine ⟨by decide, rfl, by decide, by decide⟩

/-! ## Delete -/

/-- C14 (as amended): when the remote call succeeds each time, two
`deleteContact id` in sequence both resolve with true and leave the same
`selectedContactId` as one; and when at most one held contact has an id loosely
equal to `id`, the second call finds no local entity and leaves the whole state,
contacts included, as the first call left it. -/
theorem deleteContact_twice (toNumber : ToNumber) (api₁ api₂ : Api) (id : Id) (s : State) (r₁ r₂ : Response Unit)
    (h₁ : api₁.contactDelete id = .ok r₁) (h₂ : api₂.contactDelete id = .ok r₂) :
    (deleteContact toNumber api₁ id s).result = .ok true ∧
    (deleteContact toNumber api₂ id (deleteContact toNumber api₁ id s).state).result = .ok true ∧
    (deleteContact toNumber api₂ id (deleteContact toNumber api₁ id s).state).state.selectedContactId
      = (deleteContact toNumber api₁ id s).state.selectedContactId ∧
    ((s.contacts.filter (fun c => looseEq toNumber c.id id)).length ≤ 1 →
      findIndex (fun c => looseEq toNumber c.id id) (deleteContact toNumber api₁ id s).state.contacts = none ∧
      (deleteContact toNumber api₂ id (deleteContact toNumber api₁ id s).state).state.contacts
        = (deleteContact toNumber api₁ id s).state.contacts ∧
      (deleteContact toNumber api₂ id (deleteContact toNumber api₁ id s).state).state
        = (deleteContact toNumber api₁ id s).state) := by
  have hsel : looseEqNullable toNumber
      (if looseEqNullable toNumber s.selectedContactId id = true then none else s.selectedContactId) id
      = false := by
    cases h : looseEqNullable toNumber s.selectedContactId id
    · simpa using h
    · simp [looseEqNullable]
  rw [deleteContact_of_ok toNumber api₂ id _ r₂ h₂, deleteContact_of_ok toNumber api₁ id s r₁ h₁]
  refine ⟨rfl, rfl, by simp [hsel], ?_⟩
  intro hone
  have hnone : findIndex (fun c : Contact => looseEq toNumber c.id id)
      (match findIndex (fun contact : Contact => looseEq toNumber contact.id id) s.contacts with
        | some index => s.contacts.eraseIdx index
        | none => s.contacts) = none := by
    cases hi : findIndex (fun contact : Contact => looseEq toNumber contact.id id) s.contacts with
    | some i => exact findIndex_eraseIdx_of_single _ _ i hi hone
    | none => exact hi
  simp [hnone, hsel]

/-- Witness for C14 as amended: contact 1 is deleted twice from a store holding
contacts 1 and 2. -/
theorem deleteContact_twice_witness :
    (deleteContact decimalToNumber (Api.echoing contactOne) (.num 1)
      (deleteContact decimalToNumber (Api.echoing contactOne) (.num 1)
        (stateWith [contactOne, contactTwo])).state).state.contacts
      = (deleteContact decimalToNumber (Api.echoing contactOne) (.num 1)
        (stateWith [contactOne, contactTwo])).state.contacts :=
  ((deleteContact_twice decimalToNumber (Api.echoing contactOne) (Api.echoing contactOne) (.num 1)
    (stateWith [contactOne, contactTwo]) { data := () } { data := () } rfl rfl).2.2.2
    (by decide)).2.1

/-- Counterexample to C14 as stated: the store holds two contacts whose ids are
both 1; each `deleteContact 1` succeeds remotely and removes one of them, so the
second call does change the contacts collection. -/
theorem deleteContact_twice_counterexample :
    (Api.echoing contactOne).contactDelete (.num 1) = .ok { data := () } ∧
    (deleteContact decimalToNumber (Api.echoing contactOne) (.num 1)
      (stateWith [contactOne, { contactOne with name := "Uno" }])).state.contacts
      = [{ contactOne with name := "Uno" }] ∧
    (deleteContact decimalToNumber (Api.echoing contactOne) (.num 1)
      (deleteContact decimalToNumber (Api.echoing contactOne) (.num 1)
        (stateWith [contactOne, { contactOne with name := "Uno" }])).state).state.contacts
      = [] ∧
    (deleteContact decimalToNumber (Api.echoing contactOne) (.num 1)
      (deleteContact decimalToNumber (Api.echoing contactOne) (.num 1)
        (stateWith [contactOne, { contactOne with name := "Uno" }])).state).state.contacts
      ≠ (deleteContact decimalToNumber (Api.echoing contactOne) (.num 1)
        (stateWith [contactOne, { contactOne with name := "Uno" }])).state.contacts := by
  refine ⟨rfl, by decide, by decide, by decide⟩

/-! ## Create -/

/-- C15: a successful `addContact` resolves with the entity the server returned
and leaves contacts equal to the previous collection followed by that entity,
whatever its id; the groups collection is not touched.  Likewise `addGroup`. -/
theorem add_appends_at_tail (api : Api) (s : State) :
    (∀ d response, api.contactCreate d = .ok response →
      (addContact api d s).result = .ok response.data.contact ∧
      (addContact api d s).state.contacts = s.contacts ++ [response.data.contact] ∧
      (addContact api d s).state.contacts.getLast? = some response.data.contact ∧
      (addContact api d s).state.groups = s.groups) ∧
    (∀ d response, api.groupCreate d = .ok response →
      (addGroup api d s).result = .ok response.data.group ∧
      (addGroup api d s).state.groups = s.groups ++ [response.data.group] ∧
      (addGroup api d s).state.groups.getLast? = some response.data.group ∧
      (addGroup api d s).state.contacts = s.contacts) := by
  constructor
  · intro d response hok
    simp [addContact, hok]
  · intro d response hok
    simp [addGroup, hok]

/-- Witness for C15: with contact 2 held, the server creates an entity with the
smaller id 1; it lands at the tail. -/
theorem add_appends_at_tail_witness :
    (addContact (Api.creating contactOne groupNine) (renameTo "One")
      (stateWith [contactTwo])).state.contacts = [contactTwo, contactOne] ∧
    (addGroup (Api.creating contactOne groupNine) { name := some "Nine" }
      (stateWith [contactTwo])).state.groups = [groupNine] :=
  ⟨((add_appends_at_tail (Api.creating contactOne groupNine) (stateWith [contactTwo])).1
      (renameTo "One") { data := { contact := contactOne } } rfl).2.1,
   ((add_appends_at_tail (Api.creating contactOne groupNine) (stateWith [contactTwo])).2
      { name := some "Nine" } { data := { group := groupNine } } rfl).2.1⟩

/-! ## Membership payloads -/

/-- C16 (as amended): let `getContactById contactId` find the contact `c`.  When
the current membership ids of `c` are pairwise distinct under strict equality,
every update `addContactToGroup` issues carries a `group_ids` list that is
pairwise strictly distinct, and so does every update `removeContactFromGroup`
issues.  When they are pairwise distinct even under loose equality, the list
`removeContactFromGroup` sends is so too (nothing of the kind holds for
`addContactToGroup`, whose membership test is strict). -/
theorem membership_payload_distinct (toNumber : ToNumber) (api : Api) (contactId groupId : Id)
    (s : State) (c : Contact) (hheld : getContactById toNumber s contactId = some c) :
    ((currentGroupIds c).Nodup →
      (∀ id d, Call.contactUpdate id d ∈ (addContactToGroup toNumber api contactId groupId s).calls →
        ∃ ids, d.group_ids = some ids ∧ ids.Nodup) ∧
      (∀ id d,
        Call.contactUpdate id d ∈ (removeContactFromGroup toNumber api contactId groupId s).calls →
        ∃ ids, d.group_ids = some ids ∧ ids.Nodup)) ∧
    ((currentGroupIds c).Pairwise (fun a b => looseEq toNumber a b = false) →
      ∀ id d,
        Call.contactUpdate id d ∈ (removeContactFromGroup toNumber api contactId groupId s).calls →
        ∃ ids, d.group_ids = some ids ∧
          ids.Pairwise (fun a b => looseEq toNumber a b = false)) := by
  have hremove : ∀ gs, c.groups = some gs →
      (removeContactFromGroup toNumber api contactId groupId s).calls
        = [Call.contactUpdate contactId (groupIdsPayload
            ((gs.filter (fun group => !(strictEq group.id groupId))).map
              (fun group => group.id)))] := by
    intro gs hgs
    simp only [removeContactFromGroup, hheld, hgs, Outcome.calls]
    cases hr : (updateContact toNumber api contactId (groupIdsPayload
      ((gs.filter (fun group => !(strictEq group.id groupId))).map
        (fun group => group.id))) s).result <;>
      simp [updateContact_calls]
  refine ⟨fun hc => ⟨?_, ?_⟩, fun hc => ?_⟩
  · intro id d hmem
    cases hinc : includes (currentGroupIds c) groupId with
    | true => simp [addContactToGroup, hheld, hinc, Outcome.calls] at hmem
    | false =>
      have hnot : groupId ∉ currentGroupIds c := by
        intro h
        rw [(includes_iff _ _).2 h] at hinc
        exact Bool.noConfusion hinc
      have hcalls : (addContactToGroup toNumber api contactId groupId s).calls
          = [Call.contactUpdate contactId (groupIdsPayload (currentGroupIds c ++ [groupId]))] := by
        simp only [addContactToGroup, hheld, hinc, Outcome.calls]
        cases hr : (updateContact toNumber api contactId
          (groupIdsPayload (currentGroupIds c ++ [groupId])) s).result <;>
          simp [updateContact_calls]
      rw [hcalls] at hmem
      simp at hmem
      obtain ⟨_, hd⟩ := hmem
      subst hd
      refine ⟨_, rfl, ?_⟩
      rw [List.nodup_append]
      refine ⟨hc, by simp, ?_⟩
      intro a ha hb
      simp at hb
      subst hb
      exact hnot ha
  · intro id d hmem
    cases hgs : c.groups with
    | none => simp [removeContactFromGroup, hheld, hgs, Outcome.calls] at hmem
    | some gs =>
      rw [hremove gs hgs] at hmem
      simp at hmem
      obtain ⟨_, hd⟩ := hmem
      subst hd
      refine ⟨_, rfl, ?_⟩
      have hc2 : (gs.map (fun g => g.id)).Nodup := by
        simpa [currentGroupIds, hgs] using hc
      exact hc2.sublist ((List.filter_sublist gs).map _)
  · intro id d hmem
    cases hgs : c.groups with
    | none => simp [removeContactFromGroup, hheld, hgs, Outcome.calls] at hmem
    | some gs =>
      rw [hremove gs hgs] at hmem
      simp at hmem
      obtain ⟨_, hd⟩ := hmem
      subst hd
      refine ⟨_, rfl, ?_⟩
      have hc2 : (gs.map (fun g => g.id)).Pairwise (fun a b => looseEq toNumber a b = false) := by
        simpa [currentGroupIds, hgs] using hc
      exact hc2.sublist ((List.filter_sublist gs).map _)

/-- Witness for C16 as amended: contact 1 is a member of group 9 only; adding it
to group 4 sends `[9, 4]`. -/
theorem membership_payload_distinct_witness :
    ∃ ids, (groupIdsPayload (currentGroupIds contactOne ++ [.num 4])).group_ids = some ids ∧
      ids.Nodup :=
  ((membership_payload_distinct decimalToNumber (Api.echoing contactOne) (.num 1) (.num 4)
    (stateWith [contactOne, contactTwo]) contactOne (by decide)).1 (by decide)).1 (.num 1)
    (groupIdsPayload (currentGroupIds contactOne ++ [.num 4])) (by decide)

/-- Counterexample to C16 as stated: contact 1 is a member of group 9 (a number);
`addContactToGroup 1 "9"` tests membership with strict equality, finds `"9"`
absent and sends `group_ids = [9, "9"]`, in which the same group id (as the
lookups of the store compare ids, `9 == "9"`) occurs twice. -/
theorem membership_payload_distinct_counterexample :
    getContactById decimalToNumber (stateWith [contactOne]) (.num 1) = some contactOne ∧
    currentGroupIds contactOne = [.num 9] ∧
    (addContactToGroup decimalToNumber (Api.echoing contactOne) (.num 1) (.str "9")
      (stateWith [contactOne])).calls
      = [Call.contactUpdate (.num 1) (groupIdsPayload [.num 9, .str "9"])] ∧
    looseEq decimalToNumber (.num 9) (.str "9") = true ∧
    ¬ ([Id.num 9, Id.str "9"].Pairwise (fun a b => looseEq decimalToNumber a b = false)) := by
  refine ⟨by decide, rfl, by decide, by decide, by decide⟩

/-! ## Update in place -/

/-- C17: when the store holds a contact whose id loosely equals `id`, a
successful `updateContact` replaces the first such contact in place: the
collection splits as `pre ++ c :: post` with no match in `pre` and `c` matching,
and becomes `pre ++ entity :: post`; so the element at that index is the
returned entity, every other index keeps its element and the length and order
are kept.  Likewise `updateGroup`. -/
theorem update_replaces_in_place (toNumber : ToNumber) (api : Api) (id : Id) (s : State) :
    (∀ d response, (∃ c ∈ s.contacts, looseEq toNumber c.id id = true) →
      api.contactUpdate id d = .ok response →
      ∃ pre c post, s.contacts = pre ++ c :: post ∧
        (∀ x ∈ pre, looseEq toNumber x.id id = false) ∧ looseEq toNumber c.id id = true ∧
        (updateContact toNumber api id d s).state.contacts = pre ++ response.data.contact :: post ∧
        (updateContact toNumber api id d s).state.contacts[pre.length]? = some response.data.contact ∧
        (∀ j, j ≠ pre.length →
          (updateContact toNumber api id d s).state.contacts[j]? = s.contacts[j]?) ∧
        (updateContact toNumber api id d s).state.contacts.length = s.contacts.length) ∧
    (∀ d response, (∃ g ∈ s.groups, looseEq toNumber g.id id = true) →
      api.groupUpdate id d = .ok response →
      ∃ pre g post, s.groups = pre ++ g :: post ∧
        (∀ x ∈ pre, looseEq toNumber x.id id = false) ∧ looseEq toNumber g.id id = true ∧
        (updateGroup toNumber api id d s).state.groups = pre ++ response.data.group :: post ∧
        (updateGroup toNumber api id d s).state.groups[pre.length]? = some response.data.group ∧
        (∀ j, j ≠ pre.length →
          (updateGroup toNumber api id d s).state.groups[j]? = s.groups[j]?) ∧
        (updateGroup toNumber api id d s).state.groups.length = s.groups.length) := by
  constructor
  · rintro d response ⟨c0, hc0, hid0⟩ hok
    obtain ⟨i, hi⟩ := findIndex_isSome_of_mem
      (fun contact : Contact => looseEq toNumber contact.id id) s.contacts c0 hc0 hid0
    obtain ⟨pre, c, post, hl, hpre, hc, hlen⟩ := findIndex_split _ _ i hi
    have hnew : (updateContact toNumber api id d s).state.contacts
        = s.contacts.set i response.data.contact := by
      simp [updateContact, hok, hi]
    refine ⟨pre, c, post, hl, hpre, hc, ?_, ?_, ?_, ?_⟩
    · rw [hnew, hl, hlen, set_append_cons]
    · rw [hnew, ← hlen]
      exact List.getElem?_set_self (findIndex_lt_length _ _ i hi)
    · intro j hj
      rw [hnew, hlen]
      exact List.getElem?_set_ne (Ne.symm hj)
    · rw [hnew]; simp
  · rintro d response ⟨g0, hg0, hid0⟩ hok
    obtain ⟨i, hi⟩ := findIndex_isSome_of_mem
      (fun group : Group => looseEq toNumber group.id id) s.groups g0 hg0 hid0
    obtain ⟨pre, g, post, hl, hpre, hg, hlen⟩ := findIndex_split _ _ i hi
    have hnew : (updateGroup toNumber api id d s).state.groups
        = s.groups.set i response.data.group := by
      simp [updateGroup, hok, hi]
    refine ⟨pre, g, post, hl, hpre, hg, ?_, ?_, ?_, ?_⟩
    · rw [hnew, hl, hlen, set_append_cons]
    · rw [hnew, ← hlen]
      exact List.getElem?_set_self (findIndex_lt_length _ _ i hi)
    · intro j hj
      rw [hnew, hlen]
      exact List.getElem?_set_ne (Ne.symm hj)
    · rw [hnew]; simp

/-- Witness for C17: contact 2, second of three, is renamed; its neighbours and
its position are kept. -/
theorem update_replaces_in_place_witness :
    ∃ pre c post, (stateWith [contactOne, contactTwo, contactAna]).contacts = pre ++ c :: post ∧
      (∀ x ∈ pre, looseEq decimalToNumber x.id (.str "2") = false) ∧ looseEq decimalToNumber c.id (.str "2") = true ∧
      (updateContact decimalToNumber (Api.updatingTo { contactTwo with name := "Dos" }) (.str "2") (renameTo "Dos")
        (stateWith [contactOne, contactTwo, contactAna])).state.contacts
        = pre ++ { contactTwo with name := "Dos" } :: post :=
  have h := (update_replaces_in_place decimalToNumber (Api.updatingTo { contactTwo with name := "Dos" }) (.str "2")
    (stateWith [contactOne, contactTwo, contactAna])).1 (renameTo "Dos")
    { data := { contact := { contactTwo with name := "Dos" } } }
    ⟨contactTwo, by decide, by decide⟩ rfl
  h.imp fun _ h1 => h1.imp fun _ h2 => h2.imp fun _ h3 => ⟨h3.1, h3.2.1, h3.2.2.1, h3.2.2.2.1⟩

/-! ## Failure atomicity -/

/-- C19: for each of the eight mutating operations and every state, when the
network call fails the fields `contacts`, `groups`, `selectedContactId`,
`selectedGroupId` and `pagination` are exactly what they were before the call;
only `error` and `isLoading` may differ. -/
theorem failure_atomicity (toNumber : ToNumber) (api : Api) (op : Op) (s : State) (e : ApiError)
    (hfail : op.network api = .error e) :
    (op.run toNumber api s).state.contacts = s.contacts ∧
    (op.run toNumber api s).state.groups = s.groups ∧
    (op.run toNumber api s).state.selectedContactId = s.selectedContactId ∧
    (op.run toNumber api s).state.selectedGroupId = s.selectedGroupId ∧
    (op.run toNumber api s).state.pagination = s.pagination ∧
    (op.run toNumber api s).state
      = { s with error := (op.run toNumber api s).state.error, isLoading := (op.run toNumber api s).state.isLoading } := by
  cases op <;> simp only [Op.network] at hfail
  case loadContacts p =>
    cases h : api.contactGetAll p <;> simp [h, Except.map] at hfail
    simp [Op.run, ContactStore.loadContacts, h]
  case loadGroups =>
    cases h : api.groupGetAll () <;> simp [h, Except.map] at hfail
    simp [Op.run, ContactStore.loadGroups, h]
  case addContact d =>
    cases h : api.contactCreate d <;> simp [h, Except.map] at hfail
    simp [Op.run, ContactStore.addContact, h, Outcome.void]
  case updateContact id d =>
    cases h : api.contactUpdate id d <;> simp [h, Except.map] at hfail
    simp [Op.run, ContactStore.updateContact, h, Outcome.void]
  case deleteContact id =>
    cases h : api.contactDelete id <;> simp [h, Except.map] at hfail
    simp [Op.run, ContactStore.deleteContact, h, Outcome.void]
  case addGroup d =>
    cases h : api.groupCreate d <;> simp [h, Except.map] at hfail
    simp [Op.run, ContactStore.addGroup, h, Outcome.void]
  case updateGroup id d =>
    cases h : api.groupUpdate id d <;> simp [h, Except.map] at hfail
    simp [Op.run, ContactStore.updateGroup, h, Outcome.void]
  case deleteGroup id =>
    cases h : api.groupDelete id <;> simp [h, Except.map] at hfail
    simp [Op.run, ContactStore.deleteGroup, h, Outcome.void]

/-- Witness for C19: deleting the selected contact 1 while the service is down
leaves the contacts and the selection as they were. -/
theorem failure_atomicity_witness :
    ((Op.deleteContact (.num 1)).run decimalToNumber (Api.failing networkDown)
      (selectContact (.num 1) (stateWith [contactOne, contactTwo]))).state.contacts
      = [contactOne, contactTwo] ∧
    ((Op.deleteContact (.num 1)).run decimalToNumber (Api.failing networkDown)
      (selectContact (.num 1) (stateWith [contactOne, contactTwo]))).state.selectedContactId
      = some (.num 1) :=
  have h := failure_atomicity decimalToNumber (Api.failing networkDown) (Op.deleteContact (.num 1))
    (selectContact (.num 1) (stateWith [contactOne, contactTwo])) networkDown rfl
  ⟨h.1, h.2.2.1⟩

/-! ## Leaving a group -/

/-- C18: when `getContactById contactId` finds the contact `c` and `c` has a
`groups` array, `removeContactFromGroup` sends one update whose `group_ids` is
the list of current membership ids of `c` with every id strictly equal to
`groupId` removed and the others in their original order.  When that update
succeeds and the server returns the contact with exactly that membership, the
call resolves with true, the returned contact takes the place of `c` (the
collection `pre ++ c :: post`, with no match in `pre`, becomes
`pre ++ returned :: post`) and `getContactsByGroupId groupId` becomes what the
contacts before and after that place contribute: the place of `c`, which
contributed `c` exactly when `groupId` was among its ids, contributes nothing
any more. -/
theorem removeContactFromGroup_sends (toNumber : ToNumber) (api : Api) (contactId groupId : Id)
    (s : State) (c : Contact) (gs : List Group)
    (hheld : getContactById toNumber s contactId = some c) (hgs : c.groups = some gs) :
    (removeContactFromGroup toNumber api contactId groupId s).calls
      = [Call.contactUpdate contactId (groupIdsPayload
          ((currentGroupIds c).filter (fun i => !(strictEq i groupId))))] ∧
    (∀ i, i ∈ (currentGroupIds c).filter (fun i => !(strictEq i groupId)) ↔
      i ∈ currentGroupIds c ∧ i ≠ groupId) ∧
    ((currentGroupIds c).filter (fun i => !(strictEq i groupId))).Sublist (currentGroupIds c) ∧
    (∀ response,
      api.contactUpdate contactId (groupIdsPayload
        ((currentGroupIds c).filter (fun i => !(strictEq i groupId)))) = .ok response →
      currentGroupIds response.data.contact
        = (currentGroupIds c).filter (fun i => !(strictEq i groupId)) →
      (removeContactFromGroup toNumber api contactId groupId s).result = .ok true ∧
      ∃ pre post, s.contacts = pre ++ c :: post ∧
        (∀ x ∈ pre, looseEq toNumber x.id contactId = false) ∧
        (removeContactFromGroup toNumber api contactId groupId s).state.contacts
          = pre ++ response.data.contact :: post ∧
        getContactsByGroupId s groupId
          = getContactsByGroupId { s with contacts := pre } groupId
            ++ (if groupId ∈ currentGroupIds c then [c] else [])
            ++ getContactsByGroupId { s with contacts := post } groupId ∧
        getContactsByGroupId (removeContactFromGroup toNumber api contactId groupId s).state groupId
          = getContactsByGroupId { s with contacts := pre } groupId
            ++ getContactsByGroupId { s with contacts := post } groupId) := by
  have hmem : ∀ i, i ∈ (currentGroupIds c).filter (fun i => !(strictEq i groupId)) ↔
      i ∈ currentGroupIds c ∧ i ≠ groupId := by
    intro i
    rw [List.mem_filter]
    constructor
    · rintro ⟨h1, h2⟩
      refine ⟨h1, fun h => ?_⟩
      rw [(strictEq_iff _ _).2 h] at h2
      simp at h2
    · rintro ⟨h1, h2⟩
      refine ⟨h1, ?_⟩
      cases h : strictEq i groupId with
      | false => rfl
      | true => exact absurd ((strictEq_iff _ _).1 h) h2
  have hsent : (gs.filter (fun group => !(strictEq group.id groupId))).map (fun group => group.id)
      = (currentGroupIds c).filter (fun i => !(strictEq i groupId)) := by
    rw [filter_groups_ids]
    simp [currentGroupIds, hgs]
  have hkeep : ∀ x : Contact,
      (match x.groups with
        | none => false
        | some groups => groups.any (fun group => strictEq group.id groupId))
      = decide (groupId ∈ currentGroupIds x) := by
    intro x
    cases hx : x.groups with
    | none => simp [currentGroupIds, hx]
    | some g =>
      simp only [currentGroupIds, hx]
      rw [Bool.eq_iff_iff]
      simp [List.any_eq_true, strictEq_iff]
  refine ⟨?_, hmem, List.filter_sublist _, ?_⟩
  · simp only [removeContactFromGroup, hheld, hgs, Outcome.calls, hsent]
    cases hr : (updateContact toNumber api contactId (groupIdsPayload
      ((currentGroupIds c).filter (fun i => !(strictEq i groupId)))) s).result <;>
      simp [updateContact_calls]
  · intro response hok hback
    obtain ⟨pre, post, hl, hpre, hi⟩ := find?_split
      (fun contact : Contact => looseEq toNumber contact.id contactId) s.contacts c hheld
    have hrun : removeContactFromGroup toNumber api contactId groupId s =
        { state := { s with contacts := s.contacts.set pre.length response.data.contact,
                            isLoading := false, error := none },
          result := .ok true,
          trace := [(Call.contactUpdate contactId (groupIdsPayload
              ((currentGroupIds c).filter (fun i => !(strictEq i groupId)))),
            { s with isLoading := true, error := none })] } := by
      simp [removeContactFromGroup, hheld, hgs, hsent, updateContact, hok, hi]
    have hgone : groupId ∉ currentGroupIds response.data.contact := by
      rw [hback]
      intro h
      exact ((hmem groupId).1 h).2 rfl
    rw [hrun]
    refine ⟨rfl, pre, post, hl, hpre, ?_, ?_, ?_⟩
    · simp only [hl, set_append_cons]
    · simp only [getContactsByGroupId, hl, List.filter_append, List.filter_cons, hkeep c,
        List.append_assoc]
      by_cases hin : groupId ∈ currentGroupIds c <;> simp [hin]
    · simp only [getContactsByGroupId, hl, set_append_cons, List.filter_append,
        List.filter_cons, hkeep response.data.contact]
      simp [hgone]

/-- Witness for C18, the example of the spec: with contacts 1 (in group 9) and 2,
`removeContactFromGroup 1 9` on a service that persists what it is sent sends
the empty membership and leaves `getContactsByGroupId 9` empty. -/
theorem removeContactFromGroup_sends_witness :
    (removeContactFromGroup decimalToNumber (Api.echoing contactOne) (.num 1) (.num 9)
      (stateWith [contactOne, contactTwo])).calls
      = [Call.contactUpdate (.num 1) (groupIdsPayload
          ((currentGroupIds contactOne).filter (fun i => !(strictEq i (.num 9)))))] ∧
    (removeContactFromGroup decimalToNumber (Api.echoing contactOne) (.num 1) (.num 9)
      (stateWith [contactOne, contactTwo])).result = .ok true ∧
    getContactsByGroupId (removeContactFromGroup decimalToNumber (Api.echoing contactOne)
      (.num 1) (.num 9) (stateWith [contactOne, contactTwo])).state (.num 9) = [] := by
  have h := removeContactFromGroup_sends decimalToNumber (Api.echoing contactOne) (.num 1) (.num 9)
    (stateWith [contactOne, contactTwo]) contactOne [groupNine] (by decide) rfl
  obtain ⟨hres, pre, post, hl, hpre, _, _, hafter⟩ :=
    h.2.2.2 { data := { contact := { contactOne with groups := some [] } } } rfl rfl
  refine ⟨h.1, hres, ?_⟩
  rw [hafter]
  cases pre with
  | nil =>
    simp only [stateWith, State.initial, List.nil_append, List.cons.injEq, true_and] at hl
    subst hl
    decide
  | cons x xs =>
    have hx : x = contactOne := by
      simp only [stateWith, State.initial, List.cons_append, List.cons.injEq] at hl
      exact hl.1.symm
    have := hpre x (by simp)
    rw [hx] at this
    exact absurd this (by decide)

/-! ## Delete removes one element -/

/-- C20: a successful `deleteContact id` leaves contacts unchanged when no held
contact has an id loosely equal to `id`, and otherwise removes only the first
such contact (the collection `pre ++ c :: post`, with no match in `pre`, becomes
`pre ++ post`); in both cases the result is a sublist at most one shorter, the
groups collection is untouched, and `selectedContactId` is cleared when it
loosely equals `id` and unchanged when it does not. -/
theorem deleteContact_removes_first (toNumber : ToNumber) (api : Api) (id : Id) (s : State) (r : Response Unit)
    (hok : api.contactDelete id = .ok r) :
    ((∀ c ∈ s.contacts, looseEq toNumber c.id id = false) →
      (deleteContact toNumber api id s).state.contacts = s.contacts) ∧
    ((∃ c ∈ s.contacts, looseEq toNumber c.id id = true) →
      ∃ pre c post, s.contacts = pre ++ c :: post ∧
        (∀ x ∈ pre, looseEq toNumber x.id id = false) ∧ looseEq toNumber c.id id = true ∧
        (deleteContact toNumber api id s).state.contacts = pre ++ post) ∧
    (deleteContact toNumber api id s).state.contacts.Sublist s.contacts ∧
    s.contacts.length ≤ (deleteContact toNumber api id s).state.contacts.length + 1 ∧
    (deleteContact toNumber api id s).state.groups = s.groups ∧
    (looseEqNullable toNumber s.selectedContactId id = false →
      (deleteContact toNumber api id s).state.selectedContactId = s.selectedContactId) ∧
    (looseEqNullable toNumber s.selectedContactId id = true →
      (deleteContact toNumber api id s).state.selectedContactId = none) := by
  rw [deleteContact_of_ok toNumber api id s r hok]
  refine ⟨?_, ?_, ?_, ?_, rfl, ?_, ?_⟩
  · intro hmiss
    have := (findIndex_eq_none_iff (fun contact : Contact => looseEq toNumber contact.id id) _).2 hmiss
    simp [this]
  · rintro ⟨c0, hc0, hid0⟩
    obtain ⟨i, hi⟩ := findIndex_isSome_of_mem
      (fun contact : Contact => looseEq toNumber contact.id id) s.contacts c0 hc0 hid0
    obtain ⟨pre, c, post, hl, hpre, hc, hlen⟩ := findIndex_split _ _ i hi
    refine ⟨pre, c, post, hl, hpre, hc, ?_⟩
    simp only [hi]
    rw [hl, hlen, eraseIdx_append_cons]
  · cases hi : findIndex (fun contact : Contact => looseEq toNumber contact.id id) s.contacts with
    | some i => exact List.eraseIdx_sublist _ _
    | none => exact List.Sublist.refl _
  · cases hi : findIndex (fun contact : Contact => looseEq toNumber contact.id id) s.contacts with
    | some i =>
      simp only [List.length_eraseIdx]
      split <;> omega
    | none => simp
  · intro h
    simp [h]
  · intro h
    simp [h]

/-- Witness for C20: deleting contact 2 (given as the string `"2"`) from a store
holding contacts 1, 2 and 3 with contact 1 selected. -/
theorem deleteContact_removes_first_witness :
    ∃ pre c post,
      (selectContact (.num 1) (stateWith [contactOne, contactTwo, contactAna])).contacts
        = pre ++ c :: post ∧
      (∀ x ∈ pre, looseEq decimalToNumber x.id (.str "2") = false) ∧ looseEq decimalToNumber c.id (.str "2") = true ∧
      (deleteContact decimalToNumber (Api.echoing contactOne) (.str "2")
        (selectContact (.num 1) (stateWith [contactOne, contactTwo, contactAna]))).state.contacts
        = pre ++ post :=
  (deleteContact_removes_first decimalToNumber (Api.echoing contactOne) (.str "2")
    (selectContact (.num 1) (stateWith [contactOne, contactTwo, contactAna]))
    { data := () } rfl).2.1 ⟨contactTwo, by decide, by decide⟩

end ContactStore
